import Mathlib

/-!
# RobotAka GPS tracker: receiver configuration and track logging

A shallow embedding of `src/config.cpp` (the UBX packets and the
auto-configuration sequence) and of `loop()` in `src/main.cpp` (the GPX track
logger), followed by the properties proved about them.

Conventions of the embedding:
* a `byte` is a `Nat`, additions on bytes are reduced `% 256`;
* `unsigned long` arithmetic is reduced `% 2 ^ 32`;
* text written to the card is a `List Char`;
* the receiver link (`GPS_SERIAL`) is observed as the list of calls made on it;
  output on `PC_SERIAL` and calls of `delay` are not part of that list;
* the card is observed both as its contents and as the list of calls made on
  the `SD` library; a file opened with `FILE_WRITE` starts at its end, `seek`
  moves the position unless the target is beyond the end, and `print` writes
  at the position;
* the routines that print a floating-point number are a parameter;
* `sprintf` into a `char` buffer is defined only when the text fits the buffer;
  the blocks of `loop` that call it, and `loop` itself, return an `Option`.
-/

namespace GpsTracker

/-! ## `config.cpp` -/

/-- A call on the receiver link `GPS_SERIAL`. -/
inductive LinkOp where
  | begin (baud : Nat)
  | send (bytes : List Nat)
  | flush
  deriving DecidableEq

/-- The value of `GPS_DEFAULT_BAUDRATE`. -/
def GPS_DEFAULT_BAUDRATE : Nat := 9600

/-- The value of `GPS_WANTED_BAUDRATE`. -/
def GPS_WANTED_BAUDRATE : Nat := 115200

/-- The array `possibleBaudrates` (the entries that are not commented out). -/
def possibleBaudrates : List Nat := [115200, 9600]

/-- The function `sendPacket(packet, len)`: the bytes `packet[0] .. packet[len-1]`
are written to the link in order. -/
def sendPacket (packet : List Nat) (len : Nat) : List LinkOp :=
  [LinkOp.send (packet.take len)]

/-- The packet literal of `enableNavPvt` (CFG-MSG). -/
def enableNavPvtPacket : List Nat :=
  [0xB5, 0x62, 0x06, 0x01, 0x03, 0x00, 0x01, 0x07, 0x01, 0x13, 0x51]

/-- The packet literal of `disableUnnecessaryChannels` (CFG-GNSS). -/
def disableUnnecessaryChannelsPacket : List Nat :=
  [0xB5, 0x62, 0x06, 0x3E, 0x24, 0x00,
   0x00, 0x00, 0x16, 0x04, 0x00, 0x04, 0xFF, 0x00,
   0x01, 0x00, 0x00, 0x01, 0x01, 0x01, 0x03, 0x00,
   0x00, 0x00, 0x00, 0x01, 0x05, 0x00, 0x03, 0x00,
   0x00, 0x00, 0x00, 0x01, 0x06, 0x08, 0xFF, 0x00,
   0x00, 0x00, 0x00, 0x01,
   0xA4, 0x25]

/-- The packet literal of `restoreDefaults` (CFG-CFG). -/
def restoreDefaultsPacket : List Nat :=
  [0xB5, 0x62, 0x06, 0x09, 0x0D, 0x00,
   0xFF, 0xFF, 0x00, 0x00, 0x00, 0x00, 0x00, 0x00, 0xFF, 0xFF, 0x00, 0x00, 0x17,
   0x2F, 0xAE]

/-- The packet literal of `changeBaudrate` (CFG-PRT). -/
def changeBaudratePacket : List Nat :=
  [0xB5, 0x62, 0x06, 0x00, 0x14, 0x00,
   0x01, 0x00, 0x00, 0x00, 0xD0, 0x08, 0x00, 0x00, 0x00, 0xC2, 0x01, 0x00, 0x07, 0x00,
   0x03, 0x00, 0x00, 0x00, 0x00, 0x00,
   0xC0, 0x7E]

/-- The packet literal of `changeFrequency` (CFG-RATE). -/
def changeFrequencyPacket : List Nat :=
  [0xB5, 0x62, 0x06, 0x08, 0x06, 0x00, 0x64, 0x00, 0x01, 0x00, 0x01, 0x00, 0x7A, 0x12]

/-- The function `enableNavPvt`. -/
def enableNavPvt : List LinkOp :=
  sendPacket enableNavPvtPacket enableNavPvtPacket.length

/-- The function `disableUnnecessaryChannels`. -/
def disableUnnecessaryChannels : List LinkOp :=
  sendPacket disableUnnecessaryChannelsPacket disableUnnecessaryChannelsPacket.length

/-- The function `restoreDefaults`. -/
def restoreDefaults : List LinkOp :=
  sendPacket restoreDefaultsPacket restoreDefaultsPacket.length

/-- The function `changeBaudrate`. -/
def changeBaudrate : List LinkOp :=
  sendPacket changeBaudratePacket changeBaudratePacket.length

/-- The function `changeFrequency`. -/
def changeFrequency : List LinkOp :=
  sendPacket changeFrequencyPacket changeFrequencyPacket.length

/-- The array `messages` of `disableNmea`: rows of two payload bytes. -/
def messages : List (List Nat) :=
  [[0xF0, 0x0A], [0xF0, 0x09], [0xF0, 0x00], [0xF0, 0x01], [0xF0, 0x0D],
   [0xF0, 0x06], [0xF0, 0x02], [0xF0, 0x07], [0xF0, 0x03], [0xF0, 0x04],
   [0xF0, 0x0E], [0xF0, 0x0F], [0xF0, 0x05], [0xF0, 0x08], [0xF1, 0x00],
   [0xF1, 0x01], [0xF1, 0x03], [0xF1, 0x04], [0xF1, 0x05], [0xF1, 0x06]]

/-- The initial contents of the buffer `packet` of `disableNmea`. -/
def nmeaPacketBuffer : List Nat :=
  [0xB5, 0x62, 0x06, 0x01, 0x03, 0x00, 0x00, 0x00, 0x00, 0x00, 0x00]

/-- The variable `packetSize` of `disableNmea`, `sizeof(packet)`. -/
def packetSize : Nat := nmeaPacketBuffer.length

/-- The variable `payloadOffset` of `disableNmea`. -/
def payloadOffset : Nat := 6

/-- One round of the checksum loop of `disableNmea`:
`packet[packetSize - 2] += packet[2 + j]; packet[packetSize - 1] += packet[packetSize - 2];`
on bytes. -/
def checksumRound (packet : List Nat) (j : Nat) : List Nat :=
  let p1 := packet.set (packetSize - 2)
    ((packet.getD (packetSize - 2) 0 + packet.getD (2 + j) 0) % 256)
  p1.set (packetSize - 1) ((p1.getD (packetSize - 1) 0 + p1.getD (packetSize - 2) 0) % 256)

/-- The body of the outer loop of `disableNmea`, up to the call of `sendPacket`:
the buffer left by the previous round comes in, the packet to send goes out. -/
def disableNmeaBody (packet : List Nat) (message : List Nat) : List Nat :=
  let p1 := (List.range message.length).foldl
    (fun p j => p.set (payloadOffset + j) (message.getD j 0)) packet
  let p2 := p1.set (packetSize - 2) 0x00
  let p3 := p2.set (packetSize - 1) 0x00
  (List.range (packetSize - 4)).foldl checksumRound p3

/-- The outer loop of `disableNmea` over the remaining rows of `messages`; the
buffer is carried from one round to the next. -/
def disableNmeaLoop : List Nat → List (List Nat) → List LinkOp
  | _, [] => []
  | packet, message :: rest =>
    let p := disableNmeaBody packet message
    sendPacket p packetSize ++ disableNmeaLoop p rest

/-- The function `disableNmea`. -/
def disableNmea : List LinkOp :=
  disableNmeaLoop nmeaPacketBuffer messages

/-- The first loop of `configureGpsModule` from index `i` on, over the remaining
entries of `possibleBaudrates`. -/
def restoreLoop : Nat → List Nat → List LinkOp
  | _, [] => []
  | i, baud :: rest =>
    (if i != 0 then [LinkOp.flush] else [])
      ++ [LinkOp.begin baud] ++ restoreDefaults ++ restoreLoop (i + 1) rest

/-- The function `configureGpsModule`, as the calls it makes on `GPS_SERIAL`. -/
def configureGpsModule : List LinkOp :=
  restoreLoop 0 possibleBaudrates
    ++ (if possibleBaudrates.getLast? != some GPS_DEFAULT_BAUDRATE then
          [LinkOp.flush, LinkOp.begin GPS_DEFAULT_BAUDRATE]
        else [])
    ++ disableNmea
    ++ (if GPS_WANTED_BAUDRATE != GPS_DEFAULT_BAUDRATE then
          changeBaudrate ++ [LinkOp.flush, LinkOp.begin GPS_WANTED_BAUDRATE]
        else [])
    ++ changeFrequency
    ++ disableUnnecessaryChannels
    ++ enableNavPvt
    ++ [LinkOp.flush]

/-! ### Vocabulary for the properties of `config.cpp` -/

/-- The checksum recurrence of the protocol from accumulators `ck`:
`ckA := (ckA + b) % 256; ckB := (ckB + ckA) % 256` for every byte `b`. -/
def ubxChecksumFrom (ck : Nat × Nat) (bytes : List Nat) : Nat × Nat :=
  bytes.foldl (fun acc b => ((acc.1 + b) % 256, (acc.2 + (acc.1 + b) % 256) % 256)) ck

/-- The checksum recurrence started from `0, 0`. -/
def ubxChecksum (bytes : List Nat) : Nat × Nat :=
  ubxChecksumFrom (0, 0) bytes

/-- The bytes of a packet that the checksum covers: indices `2 .. len - 3`. -/
def checksummed (packet : List Nat) : List Nat :=
  (packet.drop 2).take (packet.length - 4)

/-- A packet is well-formed when the recurrence over its checksummed bytes gives
its last two bytes. -/
def wellFormed (packet : List Nat) : Prop :=
  4 ≤ packet.length ∧
    packet.drop (packet.length - 2) = [(ubxChecksum (checksummed packet)).1,
      (ubxChecksum (checksummed packet)).2]

instance (packet : List Nat) : Decidable (wellFormed packet) := by
  unfold wellFormed; infer_instance

/-- The packets sent by a list of link calls, in order. -/
def sentPackets : List LinkOp → List (List Nat)
  | [] => []
  | LinkOp.send p :: rest => p :: sentPackets rest
  | _ :: rest => sentPackets rest

/-- The rates at which a list of link calls opens the link, in order. -/
def openedRates : List LinkOp → List Nat
  | [] => []
  | LinkOp.begin b :: rest => b :: openedRates rest
  | _ :: rest => openedRates rest

/-- Every link call paired with the rate the link was last opened at before it
(`none` before the first `begin`). -/
def withRate : Option Nat → List LinkOp → List (Option Nat × LinkOp)
  | _, [] => []
  | r, LinkOp.begin b :: rest => (r, LinkOp.begin b) :: withRate (some b) rest
  | r, op :: rest => (r, op) :: withRate r rest

/-! ## `main.cpp` -/

/-- The value of `NO_FIX`. -/
def NO_FIX : Nat := 0x00

/-- The value of `FIX_2D`. -/
def FIX_2D : Nat := 0x02

/-- The value of `FIX_3D`. -/
def FIX_3D : Nat := 0x03

/-- The fields of the decoded NAV-PVT message that `loop` reads from `gps`.
The decoder is a library whose declarations are not among the sources: every
field is taken as the number it holds, the date, the time, `fixType`, `pDOP`
and `numSV` as non-negative numbers. -/
structure Fix where
  year : Nat
  month : Nat
  day : Nat
  hour : Nat
  min : Nat
  sec : Nat
  fixType : Nat
  lon : Int
  lat : Int
  height : Int
  gSpeed : Int
  heading : Int
  pDOP : Nat
  numSV : Nat

/-- The character of a decimal digit. -/
def digitChar (d : Nat) : Char := Char.ofNat (48 + d)

/-- The decimal digits of `n`, least significant first, by repeated division;
`fuel` bounds the number of divisions and `n + 1` is always enough. -/
def revDigits : Nat → Nat → List Nat
  | 0, _ => []
  | fuel + 1, n => if n < 10 then [n] else n % 10 :: revDigits fuel (n / 10)

/-- The decimal numeral of `n`, as `%d` prints a non-negative number. -/
def decimal (n : Nat) : List Char :=
  (revDigits (n + 1) n).reverse.map digitChar

/-- Padding on the left with `pad` up to a minimum width. -/
def padLeft (pad : Char) (width : Nat) (text : List Char) : List Char :=
  List.replicate (width - text.length) pad ++ text

/-- The conversion `%0<width>d` of `sprintf` on a non-negative number. -/
def fmtZero (width n : Nat) : List Char := padLeft '0' width (decimal n)

/-- The conversion `%<width>d` of `sprintf` on a non-negative number. -/
def fmtSpace (width n : Nat) : List Char := padLeft ' ' width (decimal n)

/-- The text of `sprintf(dir, "/%04d%02d%02d", gps.year, gps.month, gps.day)`. -/
def dirName (gps : Fix) : List Char :=
  "/".toList ++ fmtZero 4 gps.year ++ fmtZero 2 gps.month ++ fmtZero 2 gps.day

/-- The text of `sprintf(filepath, "/%04d%02d%02d/%02d%02d.GPX", ...)`. -/
def filePath (gps : Fix) : List Char :=
  "/".toList ++ fmtZero 4 gps.year ++ fmtZero 2 gps.month ++ fmtZero 2 gps.day
    ++ "/".toList ++ fmtZero 2 gps.hour ++ fmtZero 2 gps.min ++ ".GPX".toList

/-- The text of `sprintf(date, "%4d-%02d-%02dT%02d:%02d:%02dZ", ...)`. -/
def dateStamp (gps : Fix) : List Char :=
  fmtSpace 4 gps.year ++ "-".toList ++ fmtZero 2 gps.month ++ "-".toList ++ fmtZero 2 gps.day
    ++ "T".toList ++ fmtZero 2 gps.hour ++ ":".toList ++ fmtZero 2 gps.min
    ++ ":".toList ++ fmtZero 2 gps.sec ++ "Z".toList

/-- The capacity of the buffer `dir`. -/
def dirCapacity : Nat := 10

/-- The capacity of the buffer `date`. -/
def dateCapacity : Nat := 21

/-- The capacity of the buffer `filepath`. -/
def filepathCapacity : Nat := 19

/-- A string fits a `char` buffer when there is room for it and its NUL. -/
def fitsIn (text : List Char) (capacity : Nat) : Prop := text.length + 1 ≤ capacity

instance (text : List Char) (capacity : Nat) : Decidable (fitsIn text capacity) := by
  unfold fitsIn; infer_instance

/-- The call `sprintf(buffer, ...)` on a `char` buffer of `capacity` bytes, for
the text that the format and the arguments give: the buffer holds the text when
the text fits with its NUL. Otherwise `sprintf` writes past the end of the
buffer, into whatever lies behind it, and the source no longer says what the
program does: that is `none`. -/
def sprintf (capacity : Nat) (text : List Char) : Option (List Char) :=
  if fitsIn text capacity then some text else none

/-- The document header printed when the file is created. -/
def header : List Char :=
  ("<?xml version=\"1.0\" encoding=\"UTF-8\"?>\n"
    ++ "<gpx version=\"1.1\" creator=\"RobotAka 1.0 - https://github.com/RobotAka/RobotAka-GPS-Tracker\" xmlns=\"http://www.topografix.com/GPX/1/1\" "
    ++ "xmlns:xsi=\"http://www.w3.org/2001/XMLSchema-instance\" "
    ++ "xsi:schemaLocation=\"http://www.topografix.com/GPX/1/1 http://www.topografix.com/GPX/1/1/gpx.xsd\">\n"
    ++ "<trk>\n<trkseg>\n").toList

/-- The closing tags printed after the header and after every track point. -/
def trailer : List Char := "</trkseg>\n</trk>\n</gpx>\n".toList

/-- The line end that `println` adds. -/
def crlf : List Char := "\r\n".toList

/-- The library routines that print a floating-point number; their output is
left open. -/
structure NumberPrinter where
  /-- The text of `print(value / divisor, digits)`. -/
  quotient : Int → Nat → Nat → List Char
  /-- The text of `print(value * 0.01, digits)`. -/
  hundredths : Nat → Nat → List Char

/-- A call on the `SD` library or on the open file. -/
inductive SdCall where
  | mkdir (path : List Char)
  | exists (path : List Char)
  | open (path : List Char)
  | seek (path : List Char) (pos : Nat)
  | print (path : List Char) (text : List Char)
  | close (path : List Char)
  deriving DecidableEq

/-- The card: which directories exist and what every file holds. All calls are
taken to succeed. -/
structure SdCard where
  dirs : List Char → Bool
  files : List Char → Option (List Char)

/-- The file `dataFile` while it is open: where it is, what it holds, and the
calls made on it since it was opened. -/
structure OpenFile where
  path : List Char
  position : Nat
  content : List Char
  calls : List SdCall

/-- The call `SD.mkdir(path)`. -/
def SdCard.mkdir (sd : SdCard) (path : List Char) : SdCard :=
  { sd with dirs := fun p => if p = path then true else sd.dirs p }

/-- The call `SD.exists(path)`. -/
def SdCard.fileExists (sd : SdCard) (path : List Char) : Bool :=
  (sd.files path).isSome

/-- The call `SD.open(path, FILE_WRITE)`: the file is created empty when it does
not exist, and the position is its end. -/
def SdCard.openWrite (sd : SdCard) (path : List Char) : OpenFile :=
  { path := path
    position := ((sd.files path).getD []).length
    content := (sd.files path).getD []
    calls := [SdCall.open path] }

/-- The call `dataFile.size()`, an unsigned 32-bit number. -/
def OpenFile.size (f : OpenFile) : Nat := f.content.length % 2 ^ 32

/-- The call `dataFile.seek(pos)`: refused, leaving the position where it was,
when `pos` is beyond the end of the file. -/
def OpenFile.seek (f : OpenFile) (pos : Nat) : OpenFile :=
  { f with
    position := if pos ≤ f.content.length then pos else f.position
    calls := f.calls ++ [SdCall.seek f.path pos] }

/-- The call `dataFile.print(text)`: the text goes to the current position, over
what is there and beyond the end when it is longer. -/
def OpenFile.print (f : OpenFile) (text : List Char) : OpenFile :=
  { f with
    content := f.content.take f.position ++ text ++ f.content.drop (f.position + text.length)
    position := f.position + text.length
    calls := f.calls ++ [SdCall.print f.path text] }

/-- The call `dataFile.println(text)`. -/
def OpenFile.println (f : OpenFile) (text : List Char) : OpenFile :=
  f.print (text ++ crlf)

/-- The call `dataFile.close()`: the card holds what the file held. -/
def SdCard.close (sd : SdCard) (f : OpenFile) : SdCard :=
  { sd with files := fun p => if p = f.path then some f.content else sd.files p }

/-- The global variables of `main.cpp`, the card, and the calls made on the card
so far (oldest first). -/
structure Logger where
  dir : List Char
  date : List Char
  filepath : List Char
  recording : Bool
  cardError : Bool
  ledGpsFix : Bool
  ledRecording : Bool
  sd : SdCard
  sdCalls : List SdCall

/-- The state after `setup` on a card that was found. -/
def Logger.start (sd : SdCard) : Logger :=
  { dir := [], date := [], filepath := [], recording := false, cardError := false,
    ledGpsFix := false, ledRecording := false, sd := sd, sdCalls := [] }

/-- Closing `dataFile`: the card is updated and the calls on the file are
recorded. -/
def Logger.closeFile (s : Logger) (f : OpenFile) : Logger :=
  { s with sd := s.sd.close f, sdCalls := s.sdCalls ++ f.calls ++ [SdCall.close f.path] }

/-- Lines 114-128 of `loop`, run once `dir` and `filepath` hold the names: the
directory is made, the document is created when the file does not exist, and
`recording` is set. -/
def startTrack (s : Logger) : Logger :=
  let s2 := { s with sd := s.sd.mkdir s.dir, sdCalls := s.sdCalls ++ [SdCall.mkdir s.dir] }
  let s3 := { s2 with sdCalls := s2.sdCalls ++ [SdCall.exists s2.filepath] }
  let s4 :=
    if !s3.sd.fileExists s3.filepath then
      let f0 := s3.sd.openWrite s3.filepath
      let f1 := f0.print header
      let f2 := f1.print trailer
      s3.closeFile f2
    else s3
  { s4 with recording := true }

/-- The block `if (!recording) { ... }` of `loop` (lines 109-130); `none` when
one of the two calls of `sprintf` overruns its buffer. -/
def beginRecording (s : Logger) (gps : Fix) : Option Logger :=
  if !s.recording then
    if gps.year > 2000 then
      (sprintf dirCapacity (dirName gps)).bind fun dir =>
      (sprintf filepathCapacity (filePath gps)).bind fun filepath =>
        some (startTrack { s with dir := dir, filepath := filepath })
    else some s
  else some s

/-- The value of `filesize` after `filesize -= 24` on an `unsigned long`. -/
def seekTarget (filesize : Nat) : Nat := (filesize + 2 ^ 32 - 24) % 2 ^ 32

/-- The prints of one track point, from `<trkpt` to `</trkpt>` (lines 145-175). -/
def printTrackPoint (np : NumberPrinter) (date : List Char) (gps : Fix) (f : OpenFile) :
    OpenFile :=
  let f := f.print "<trkpt lat=\"".toList
  let f := f.print (np.quotient gps.lat 10000000 7)
  let f := f.print "\" lon=\"".toList
  let f := f.print (np.quotient gps.lon 10000000 7)
  let f := f.println "\">".toList
  let f := f.print "<time>".toList
  let f := f.print date
  let f := f.println "</time>".toList
  let f := f.print "<pdop>".toList
  let f := f.print (np.hundredths gps.pDOP 2)
  let f := f.println "</pdop>".toList
  let f := f.print "<ele>".toList
  let f := f.print (np.quotient gps.height 1000 3)
  let f := f.print "</ele>".toList
  let f := f.print "<speed>".toList
  let f := f.print (np.quotient gps.gSpeed 1000 5)
  let f := f.println "</speed>".toList
  let f := f.print "<course>".toList
  let f := f.print (np.quotient gps.heading 100000 5)
  let f := f.println "</course>".toList
  let f := f.print "<sat>".toList
  let f := f.print (decimal gps.numSV)
  let f := f.println "</sat>".toList
  f.print "</trkpt>".toList

/-- Lines 138-177 of `loop`, run once `date` holds the timestamp: the file is
opened, the position is set 24 bytes before its end, the track point and the
closing tags are printed, and the file is closed. -/
def appendTrackPoint (np : NumberPrinter) (s : Logger) (gps : Fix) : Logger :=
  let f0 := s.sd.openWrite s.filepath
  let filesize := seekTarget f0.size
  let f1 := f0.seek filesize
  let f2 := printTrackPoint np s.date gps f1
  let f3 := f2.print trailer
  s.closeFile f3

/-- The block `if (recording) { ... } else { ... }` of `loop` (lines 132-184);
`none` when the call of `sprintf` overruns `date`. -/
def writeTrackPoint (np : NumberPrinter) (s : Logger) (gps : Fix) : Option Logger :=
  if s.recording then
    if gps.pDOP != 0 then
      (sprintf dateCapacity (dateStamp gps)).bind fun date =>
        some (appendTrackPoint np { s with ledRecording := true, date := date } gps)
    else some s
  else some { s with ledRecording := false }

/-- The function `loop`, run once; `gps` is `none` when `gps.ready()` is false
and the decoded message otherwise. The result is `none` when a call of
`sprintf` overruns its buffer. -/
def loop (np : NumberPrinter) (s : Logger) (gps : Option Fix) : Option Logger :=
  if s.cardError then
    some { s with ledGpsFix := false, ledRecording := false }
  else
    match gps with
    | none => some s
    | some g =>
      if g.fixType = FIX_2D || g.fixType = FIX_3D then
        (beginRecording { s with ledGpsFix := true } g).bind fun s1 =>
          writeTrackPoint np s1 g
      else
        some { s with ledGpsFix := false }

/-- The function `loop` run once for every element of `inputs`, in order, as
long as the calls are defined. -/
def run (np : NumberPrinter) : Logger → List (Option Fix) → Option Logger
  | s, [] => some s
  | s, i :: rest => (loop np s i).bind fun s1 => run np s1 rest

/-! ### Vocabulary for the properties of `main.cpp` -/

/-- The texts that `printTrackPoint` prints, in order. -/
def trackPointPieces (np : NumberPrinter) (date : List Char) (gps : Fix) : List (List Char) :=
  ["<trkpt lat=\"".toList, np.quotient gps.lat 10000000 7,
   "\" lon=\"".toList, np.quotient gps.lon 10000000 7, "\">".toList ++ crlf,
   "<time>".toList, date, "</time>".toList ++ crlf,
   "<pdop>".toList, np.hundredths gps.pDOP 2, "</pdop>".toList ++ crlf,
   "<ele>".toList, np.quotient gps.height 1000 3, "</ele>".toList,
   "<speed>".toList, np.quotient gps.gSpeed 1000 5, "</speed>".toList ++ crlf,
   "<course>".toList, np.quotient gps.heading 100000 5, "</course>".toList ++ crlf,
   "<sat>".toList, decimal gps.numSV, "</sat>".toList ++ crlf,
   "</trkpt>".toList]

/-- The text of the track point of one fix as it stands in the file. -/
def trackPoint (np : NumberPrinter) (gps : Fix) : List Char :=
  (trackPointPieces np (dateStamp gps) gps).flatten

/-- The track points of a list of fixes, one after the other. -/
def trackPoints (np : NumberPrinter) : List Fix → List Char
  | [] => []
  | g :: rest => trackPoint np g ++ trackPoints np rest

/-- The open file holds `before` up to its position and `after` from there on. -/
def OpenFile.Splits (f : OpenFile) (before after : List Char) : Prop :=
  f.content = before ++ after ∧ f.position = before.length

/-- The names that `beginRecording` formats from a fix fit `dir` and
`filepath`. -/
def namesFit (gps : Fix) : Prop :=
  fitsIn (dirName gps) dirCapacity ∧ fitsIn (filePath gps) filepathCapacity

instance (gps : Fix) : Decidable (namesFit gps) := by
  unfold namesFit; infer_instance

/-- The timestamp that `writeTrackPoint` formats from a fix fits `date`. -/
def dateFits (gps : Fix) : Prop := fitsIn (dateStamp gps) dateCapacity

instance (gps : Fix) : Decidable (dateFits gps) := by
  unfold dateFits; infer_instance

/-- Two texts differ at a position that both have. -/
def clash : List Char → List Char → Bool
  | a :: as, b :: bs => a != b || clash as bs
  | _, _ => false

/-- The text `pattern` begins at no position of `text`, whatever follows `text`. -/
def freeOf (pattern : List Char) : List Char → Bool
  | [] => true
  | c :: cs => clash pattern (c :: cs) && freeOf pattern cs

/-- A number printer for examples: it prints the integer it is given. -/
def plainPrinter : NumberPrinter :=
  { quotient := fun v _ _ => decimal v.natAbs, hundredths := fun v _ => decimal v }

/-- A fix for examples: 3D, 2019-01-02 03:04:05, pDOP 1.50. -/
def sampleFix : Fix :=
  { year := 2019, month := 1, day := 2, hour := 3, min := 4, sec := 5, fixType := FIX_3D,
    lon := 305000000, lat := 599000000, height := 12000, gSpeed := 1500, heading := 9000000,
    pDOP := 150, numSV := 7 }

/-- A card for examples: it holds nothing. -/
def emptyCard : SdCard := { dirs := fun _ => false, files := fun _ => none }

/-- A card for examples: the file that `sampleFix` names is there and is empty. -/
def staleCard : SdCard :=
  { dirs := fun p => decide (p = dirName sampleFix)
    files := fun p => if p = filePath sampleFix then some [] else none }

/-- A fix has a 2D or a 3D solution. -/
def hasFix (gps : Fix) : Prop := gps.fixType = FIX_2D ∨ gps.fixType = FIX_3D

instance (gps : Fix) : Decidable (hasFix gps) := by
  unfold hasFix; infer_instance

/-- An input on which an idle logger starts recording. -/
def startsRecording : Option Fix → Prop
  | none => False
  | some g => hasFix g ∧ 2000 < g.year

/-- The fixes of `inputs` for which a recording logger writes a track point:
those with a 2D or 3D solution and a nonzero pDOP. -/
def written : List (Option Fix) → List Fix
  | [] => []
  | none :: rest => written rest
  | some g :: rest => if hasFix g ∧ g.pDOP ≠ 0 then g :: written rest else written rest

/-- The number of positions of `text` at which `pattern` begins. -/
def occurrences (pattern : List Char) : List Char → Nat
  | [] => if pattern.isPrefixOf [] then 1 else 0
  | c :: cs => (if pattern.isPrefixOf (c :: cs) then 1 else 0) + occurrences pattern cs

/-- The numbers printed by `np` contain no `<`. -/
def NoMarkup (np : NumberPrinter) : Prop :=
  (∀ v d k, '<' ∉ np.quotient v d k) ∧ (∀ v k, '<' ∉ np.hundredths v k)

/-! ## Properties of `config.cpp` -/

/-- Claim C1: each of the five literal packets is sent whole and is well-formed, the
20 packets built by `disableNmea` are well-formed, hence so is every packet that
`configureGpsModule` sends: the recurrence from `0, 0` over the bytes at
indices `2 .. len - 3` gives the last two bytes. The packet of
`restoreDefaults` ends in `2F AE`. -/
theorem configureGpsModule_packets_wellFormed :
    sentPackets enableNavPvt = [enableNavPvtPacket] ∧ wellFormed enableNavPvtPacket
    ∧ sentPackets disableUnnecessaryChannels = [disableUnnecessaryChannelsPacket]
    ∧ wellFormed disableUnnecessaryChannelsPacket
    ∧ sentPackets restoreDefaults = [restoreDefaultsPacket] ∧ wellFormed restoreDefaultsPacket
    ∧ sentPackets changeBaudrate = [changeBaudratePacket] ∧ wellFormed changeBaudratePacket
    ∧ sentPackets changeFrequency = [changeFrequencyPacket] ∧ wellFormed changeFrequencyPacket
    ∧ (sentPackets disableNmea).length = 20
    ∧ (∀ p ∈ sentPackets disableNmea, wellFormed p)
    ∧ (sentPackets configureGpsModule).length = 26
    ∧ (∀ p ∈ sentPackets configureGpsModule, wellFormed p)
    ∧ restoreDefaultsPacket.drop (restoreDefaultsPacket.length - 2) = [0x2F, 0xAE] := by
  decide

/-- Claim C7: the calls of `configureGpsModule` on the receiver link are, in order and
byte for byte: open at 115200, restore defaults, flush, open at 9600, restore
defaults, the 20 disable-message packets (one for every row of `messages`, in
their order, each with its own checksum), change baud rate, flush, open at
115200, set the measurement rate, disable the constellations, enable NAV-PVT,
flush. So the first loop opens the link at the entries of `possibleBaudrates`
in their order, which is strictly descending; the change of baud rate is sent
once, while the link is open at 9600, and is followed by a flush and then the
reopening at 115200; and the last call is a flush. -/
theorem configureGpsModule_link_sequence :
    configureGpsModule =
      [ LinkOp.begin 115200,
        LinkOp.send [0xB5, 0x62, 0x06, 0x09, 0x0D, 0x00, 0xFF, 0xFF, 0x00, 0x00, 0x00, 0x00, 0x00,
          0x00, 0xFF, 0xFF, 0x00, 0x00, 0x17, 0x2F, 0xAE],
        LinkOp.flush,
        LinkOp.begin 9600,
        LinkOp.send [0xB5, 0x62, 0x06, 0x09, 0x0D, 0x00, 0xFF, 0xFF, 0x00, 0x00, 0x00, 0x00, 0x00,
          0x00, 0xFF, 0xFF, 0x00, 0x00, 0x17, 0x2F, 0xAE],
        LinkOp.send [0xB5, 0x62, 0x06, 0x01, 0x03, 0x00, 0xF0, 0x0A, 0x00, 0x04, 0x23],
        LinkOp.send [0xB5, 0x62, 0x06, 0x01, 0x03, 0x00, 0xF0, 0x09, 0x00, 0x03, 0x21],
        LinkOp.send [0xB5, 0x62, 0x06, 0x01, 0x03, 0x00, 0xF0, 0x00, 0x00, 0xFA, 0x0F],
        LinkOp.send [0xB5, 0x62, 0x06, 0x01, 0x03, 0x00, 0xF0, 0x01, 0x00, 0xFB, 0x11],
        LinkOp.send [0xB5, 0x62, 0x06, 0x01, 0x03, 0x00, 0xF0, 0x0D, 0x00, 0x07, 0x29],
        LinkOp.send [0xB5, 0x62, 0x06, 0x01, 0x03, 0x00, 0xF0, 0x06, 0x00, 0x00, 0x1B],
        LinkOp.send [0xB5, 0x62, 0x06, 0x01, 0x03, 0x00, 0xF0, 0x02, 0x00, 0xFC, 0x13],
        LinkOp.send [0xB5, 0x62, 0x06, 0x01, 0x03, 0x00, 0xF0, 0x07, 0x00, 0x01, 0x1D],
        LinkOp.send [0xB5, 0x62, 0x06, 0x01, 0x03, 0x00, 0xF0, 0x03, 0x00, 0xFD, 0x15],
        LinkOp.send [0xB5, 0x62, 0x06, 0x01, 0x03, 0x00, 0xF0, 0x04, 0x00, 0xFE, 0x17],
        LinkOp.send [0xB5, 0x62, 0x06, 0x01, 0x03, 0x00, 0xF0, 0x0E, 0x00, 0x08, 0x2B],
        LinkOp.send [0xB5, 0x62, 0x06, 0x01, 0x03, 0x00, 0xF0, 0x0F, 0x00, 0x09, 0x2D],
        LinkOp.send [0xB5, 0x62, 0x06, 0x01, 0x03, 0x00, 0xF0, 0x05, 0x00, 0xFF, 0x19],
        LinkOp.send [0xB5, 0x62, 0x06, 0x01, 0x03, 0x00, 0xF0, 0x08, 0x00, 0x02, 0x1F],
        LinkOp.send [0xB5, 0x62, 0x06, 0x01, 0x03, 0x00, 0xF1, 0x00, 0x00, 0xFB, 0x12],
        LinkOp.send [0xB5, 0x62, 0x06, 0x01, 0x03, 0x00, 0xF1, 0x01, 0x00, 0xFC, 0x14],
        LinkOp.send [0xB5, 0x62, 0x06, 0x01, 0x03, 0x00, 0xF1, 0x03, 0x00, 0xFE, 0x18],
        LinkOp.send [0xB5, 0x62, 0x06, 0x01, 0x03, 0x00, 0xF1, 0x04, 0x00, 0xFF, 0x1A],
        LinkOp.send [0xB5, 0x62, 0x06, 0x01, 0x03, 0x00, 0xF1, 0x05, 0x00, 0x00, 0x1C],
        LinkOp.send [0xB5, 0x62, 0x06, 0x01, 0x03, 0x00, 0xF1, 0x06, 0x00, 0x01, 0x1E],
        LinkOp.send [0xB5, 0x62, 0x06, 0x00, 0x14, 0x00, 0x01, 0x00, 0x00, 0x00, 0xD0, 0x08, 0x00,
          0x00, 0x00, 0xC2, 0x01, 0x00, 0x07, 0x00, 0x03, 0x00, 0x00, 0x00, 0x00, 0x00, 0xC0, 0x7E],
        LinkOp.flush,
        LinkOp.begin 115200,
        LinkOp.send [0xB5, 0x62, 0x06, 0x08, 0x06, 0x00, 0x64, 0x00, 0x01, 0x00, 0x01, 0x00, 0x7A,
          0x12],
        LinkOp.send [0xB5, 0x62, 0x06, 0x3E, 0x24, 0x00, 0x00, 0x00, 0x16, 0x04, 0x00, 0x04, 0xFF,
          0x00, 0x01, 0x00, 0x00, 0x01, 0x01, 0x01, 0x03, 0x00, 0x00, 0x00, 0x00, 0x01, 0x05, 0x00,
          0x03, 0x00, 0x00, 0x00, 0x00, 0x01, 0x06, 0x08, 0xFF, 0x00, 0x00, 0x00, 0x00, 0x01, 0xA4,
          0x25],
        LinkOp.send [0xB5, 0x62, 0x06, 0x01, 0x03, 0x00, 0x01, 0x07, 0x01, 0x13, 0x51],
        LinkOp.flush ]
    ∧ configureGpsModule =
        [LinkOp.begin 115200, LinkOp.send restoreDefaultsPacket, LinkOp.flush,
          LinkOp.begin 9600, LinkOp.send restoreDefaultsPacket]
        ++ messages.map (fun m => LinkOp.send
            [0xB5, 0x62, 0x06, 0x01, 0x03, 0x00, m.getD 0 0, m.getD 1 0, 0x00,
              (ubxChecksum [0x06, 0x01, 0x03, 0x00, m.getD 0 0, m.getD 1 0, 0x00]).1,
              (ubxChecksum [0x06, 0x01, 0x03, 0x00, m.getD 0 0, m.getD 1 0, 0x00]).2])
        ++ [LinkOp.send changeBaudratePacket, LinkOp.flush, LinkOp.begin 115200,
          LinkOp.send changeFrequencyPacket, LinkOp.send disableUnnecessaryChannelsPacket,
          LinkOp.send enableNavPvtPacket, LinkOp.flush]
    ∧ messages.length = 20
    ∧ openedRates (restoreLoop 0 possibleBaudrates) = possibleBaudrates
    ∧ possibleBaudrates = [115200, 9600]
    ∧ possibleBaudrates.Pairwise (fun a b => b < a)
    ∧ openedRates configureGpsModule = possibleBaudrates ++ [GPS_WANTED_BAUDRATE]
    ∧ (withRate none configureGpsModule).filter
        (fun x => decide (x.2 = LinkOp.send changeBaudratePacket))
        = [(some GPS_DEFAULT_BAUDRATE, LinkOp.send changeBaudratePacket)]
    ∧ [LinkOp.send changeBaudratePacket, LinkOp.flush, LinkOp.begin GPS_WANTED_BAUDRATE]
        <:+: configureGpsModule
    ∧ configureGpsModule.getLast? = some LinkOp.flush := by
  decide

/-- Claim C8: `disableNmea` makes 20 calls, all of them sends; the packet for the row
`m` of `messages` is `B5 62 06 01 03 00 m[0] m[1] 00 ckA ckB`, 11 bytes, with
`ckA, ckB` the recurrence from `0, 0` over its own bytes 2 to 8; the 20 rows
are pairwise distinct, and so are the packets. Whatever the buffer holds when a
round begins, the packet of the round has the new payload and the checksum of
its own bytes 2 to 8: the old payload and the old checksum bytes do not enter
it. -/
theorem disableNmea_packets :
    disableNmea = (sentPackets disableNmea).map LinkOp.send
    ∧ (sentPackets disableNmea).length = 20
    ∧ sentPackets disableNmea = messages.map (fun m =>
        [0xB5, 0x62, 0x06, 0x01, 0x03, 0x00, m.getD 0 0, m.getD 1 0, 0x00,
          (ubxChecksum [0x06, 0x01, 0x03, 0x00, m.getD 0 0, m.getD 1 0, 0x00]).1,
          (ubxChecksum [0x06, 0x01, 0x03, 0x00, m.getD 0 0, m.getD 1 0, 0x00]).2])
    ∧ (sentPackets disableNmea).map List.length = List.replicate 20 11
    ∧ messages.map List.length = List.replicate 20 2
    ∧ messages.Nodup
    ∧ (sentPackets disableNmea).Nodup
    ∧ (∀ b0 b1 b2 b3 b4 b5 b6 b7 b8 b9 b10 talkerClass msgId : Nat,
        disableNmeaBody [b0, b1, b2, b3, b4, b5, b6, b7, b8, b9, b10] [talkerClass, msgId]
          = [b0, b1, b2, b3, b4, b5, talkerClass, msgId, b8,
              (ubxChecksum [b2, b3, b4, b5, talkerClass, msgId, b8]).1,
              (ubxChecksum [b2, b3, b4, b5, talkerClass, msgId, b8]).2]) := by
  refine ⟨by decide, by decide, by decide, by decide, by decide, by decide, by decide, ?_⟩
  intro b0 b1 b2 b3 b4 b5 b6 b7 b8 b9 b10 talkerClass msgId
  simp [disableNmeaBody, checksumRound, ubxChecksum, ubxChecksumFrom, packetSize, payloadOffset,
    nmeaPacketBuffer, List.range, List.range.loop]
  omega

/-! ## Decimal numerals -/

theorem revDigits_fuel (n : Nat) : ∀ fuel, n < fuel → revDigits fuel n = revDigits (n + 1) n := by
  induction n using Nat.strong_induction_on with
  | _ n ih =>
    intro fuel hf
    obtain ⟨f, rfl⟩ : ∃ f, fuel = f + 1 := ⟨fuel - 1, by omega⟩
    simp only [revDigits]
    by_cases h : n < 10
    · simp [h]
    · simp only [h, if_false]
      have hlt : n / 10 < n := by omega
      rw [ih (n / 10) hlt f (by omega), ih (n / 10) hlt n hlt]

theorem revDigits_step (n : Nat) :
    revDigits (n + 1) n = if n < 10 then [n] else n % 10 :: revDigits (n / 10 + 1) (n / 10) := by
  by_cases h : n < 10
  · simp [revDigits, h]
  · have e : revDigits (n + 1) n = n % 10 :: revDigits n (n / 10) := by
      simp [revDigits, h]
    rw [e, if_neg h, revDigits_fuel (n / 10) n (by omega)]

theorem revDigits_small (n : Nat) (h : n < 10) : revDigits (n + 1) n = [n] := by
  rw [revDigits_step, if_pos h]

theorem revDigits_large (n : Nat) (h : 10 ≤ n) :
    revDigits (n + 1) n = n % 10 :: revDigits (n / 10 + 1) (n / 10) := by
  rw [revDigits_step, if_neg (by omega)]

theorem revDigits_lt_ten (n : Nat) : ∀ d ∈ revDigits (n + 1) n, d < 10 := by
  induction n using Nat.strong_induction_on with
  | _ n ih =>
    intro d hd
    by_cases h : n < 10
    · rw [revDigits_small n h] at hd
      simp at hd
      omega
    · rw [revDigits_large n (by omega)] at hd
      rcases List.mem_cons.mp hd with h1 | h1
      · omega
      · exact ih (n / 10) (by omega) d h1

theorem revDigits_length_ge (k : Nat) :
    ∀ n, 10 ^ k ≤ n → k + 1 ≤ (revDigits (n + 1) n).length := by
  induction k with
  | zero =>
    intro n _
    by_cases h : n < 10
    · rw [revDigits_small n h]; simp
    · rw [revDigits_large n (by omega)]; simp
  | succ k ih =>
    intro n hn
    have h10 : 10 ≤ n := by
      have : 1 ≤ 10 ^ k := Nat.one_le_pow _ _ (by norm_num)
      have : 10 ^ (k + 1) = 10 * 10 ^ k := by ring
      omega
    rw [revDigits_large n h10]
    have hq : 10 ^ k ≤ n / 10 := by
      have : 10 ^ (k + 1) = 10 * 10 ^ k := by ring
      omega
    have := ih (n / 10) hq
    simp only [List.length_cons]
    omega

theorem decimal_length_ge (k n : Nat) (h : 10 ^ k ≤ n) : k + 1 ≤ (decimal n).length := by
  simpa [decimal] using revDigits_length_ge k n h

theorem digitChar_ne_lt (d : Nat) (h : d < 10) : digitChar d ≠ '<' := by
  interval_cases d <;> decide

theorem decimal_no_lt (n : Nat) : '<' ∉ decimal n := by
  intro hmem
  simp only [decimal, List.mem_map, List.mem_reverse] at hmem
  obtain ⟨d, hd, hc⟩ := hmem
  exact digitChar_ne_lt d (revDigits_lt_ten n d hd) hc

theorem fmtZero_two (n : Nat) (h : n ≤ 99) :
    fmtZero 2 n = [digitChar (n / 10), digitChar (n % 10)] := by
  by_cases h1 : n < 10
  · have e1 : n / 10 = 0 := by omega
    have e2 : n % 10 = n := by omega
    rw [e1, e2]
    simp [fmtZero, padLeft, decimal, revDigits_small n h1, List.replicate]
    decide
  · have h2 : n / 10 < 10 := by omega
    simp [fmtZero, padLeft, decimal, revDigits_large n (by omega), revDigits_small _ h2]

theorem decimal_four (pad : Char) (n : Nat) (h : n ≤ 9999) :
    (padLeft pad 4 (decimal n)).length = 4
    ∧ (pad = '0' → padLeft pad 4 (decimal n) =
      [digitChar (n / 1000), digitChar (n / 100 % 10), digitChar (n / 10 % 10),
        digitChar (n % 10)]) := by
  by_cases h1 : n < 10
  · have e1 : n / 1000 = 0 := by omega
    have e2 : n / 100 % 10 = 0 := by omega
    have e3 : n / 10 % 10 = 0 := by omega
    have e4 : n % 10 = n := by omega
    rw [e1, e2, e3, e4]
    constructor
    · simp [padLeft, decimal, revDigits_small n h1]
    · rintro rfl
      simp [padLeft, decimal, revDigits_small n h1, List.replicate]
      decide
  · by_cases h2 : n < 100
    · have e1 : n / 1000 = 0 := by omega
      have e2 : n / 100 % 10 = 0 := by omega
      have e3 : n / 10 % 10 = n / 10 := by omega
      have q1 : n / 10 < 10 := by omega
      rw [e1, e2, e3]
      constructor
      · simp [padLeft, decimal, revDigits_large n (by omega), revDigits_small _ q1]
      · rintro rfl
        simp [padLeft, decimal, revDigits_large n (by omega), revDigits_small _ q1,
          List.replicate]
        decide
    · by_cases h3 : n < 1000
      · have e1 : n / 1000 = 0 := by omega
        have e2 : n / 100 % 10 = n / 10 / 10 := by omega
        have q1 : 10 ≤ n / 10 := by omega
        have q2 : n / 10 / 10 < 10 := by omega
        rw [e1, e2]
        constructor
        · simp [padLeft, decimal, revDigits_large n (by omega), revDigits_large _ q1,
            revDigits_small _ q2]
        · rintro rfl
          simp [padLeft, decimal, revDigits_large n (by omega), revDigits_large _ q1,
            revDigits_small _ q2, List.replicate]
          decide
      · have e1 : n / 1000 = n / 10 / 10 / 10 := by omega
        have e2 : n / 100 % 10 = n / 10 / 10 % 10 := by omega
        have q1 : 10 ≤ n / 10 := by omega
        have q2 : 10 ≤ n / 10 / 10 := by omega
        have q3 : n / 10 / 10 / 10 < 10 := by omega
        rw [e1, e2]
        constructor
        · simp [padLeft, decimal, revDigits_large n (by omega), revDigits_large _ q1,
            revDigits_large _ q2, revDigits_small _ q3]
        · rintro rfl
          simp [padLeft, decimal, revDigits_large n (by omega), revDigits_large _ q1,
            revDigits_large _ q2, revDigits_small _ q3]

theorem fmtZero_four (n : Nat) (h : n ≤ 9999) :
    fmtZero 4 n = [digitChar (n / 1000), digitChar (n / 100 % 10), digitChar (n / 10 % 10),
      digitChar (n % 10)] :=
  (decimal_four '0' n h).2 rfl


theorem padLeft_length (pad : Char) (w : Nat) (t : List Char) :
    (padLeft pad w t).length = (w - t.length) + t.length := by
  simp [padLeft]

theorem fmtZero_two_length (n : Nat) (h : n ≤ 99) : (fmtZero 2 n).length = 2 := by
  rw [fmtZero_two n h]; rfl

/-! ## Printing into the open file -/

theorem printTrackPoint_eq_foldl (np : NumberPrinter) (date : List Char) (g : Fix)
    (f : OpenFile) :
    printTrackPoint np date g f = (trackPointPieces np date g).foldl OpenFile.print f :=
  rfl

theorem print_path (f : OpenFile) (t : List Char) : (f.print t).path = f.path := rfl

theorem foldl_print_path (ts : List (List Char)) :
    ∀ f : OpenFile, (ts.foldl OpenFile.print f).path = f.path := by
  induction ts with
  | nil => intro f; rfl
  | cons t ts ih => intro f; rw [List.foldl_cons, ih, print_path]

theorem splits_print (f : OpenFile) (a b t : List Char) (h : f.Splits a b) :
    (f.print t).Splits (a ++ t) (b.drop t.length) := by
  obtain ⟨hc, hp⟩ := h
  constructor
  · simp only [OpenFile.print, hc, hp]
    rw [List.take_left, List.drop_append]
  · simp [OpenFile.print, hp]

theorem splits_foldl_print (ts : List (List Char)) :
    ∀ (f : OpenFile) (a b : List Char), f.Splits a b →
      (ts.foldl OpenFile.print f).Splits (a ++ ts.flatten) (b.drop ts.flatten.length) := by
  induction ts with
  | nil => intro f a b h; simpa using h
  | cons t ts ih =>
    intro f a b h
    have h1 := ih (f.print t) (a ++ t) (b.drop t.length) (splits_print f a b t h)
    simpa [List.append_assoc, Nat.add_comm] using h1

theorem print_length_le (f : OpenFile) (t : List Char) :
    f.content.length ≤ (f.print t).content.length := by
  simp only [OpenFile.print, List.length_append, List.length_take, List.length_drop]
  omega

theorem foldl_print_length_le (ts : List (List Char)) :
    ∀ f : OpenFile, f.content.length ≤ (ts.foldl OpenFile.print f).content.length := by
  induction ts with
  | nil => intro f; exact Nat.le_refl _
  | cons t ts ih => intro f; exact Nat.le_trans (print_length_le f t) (ih (f.print t))

theorem trailer_length : trailer.length = 24 := by decide

theorem seekTarget_of_ge (n : Nat) (h1 : 24 ≤ n) (h2 : n < 2 ^ 32) :
    seekTarget (n % 2 ^ 32) = n - 24 := by
  unfold seekTarget
  omega

theorem header_trailer_length : (header ++ trailer).length = 365 := by
  rw [List.length_append, trailer_length]
  have : header.length = 341 := by
    set_option maxRecDepth 100000 in decide
  omega

/-! ## The two blocks of `loop` -/

theorem sprintf_of_fits (capacity : Nat) (text : List Char) (h : fitsIn text capacity) :
    sprintf capacity text = some text := by
  simp [sprintf, h]

theorem sprintf_of_not_fits (capacity : Nat) (text : List Char) (h : ¬ fitsIn text capacity) :
    sprintf capacity text = none := by
  simp [sprintf, h]

theorem mkdir_files (sd : SdCard) (p : List Char) : (sd.mkdir p).files = sd.files := rfl

theorem mkdir_fileExists (sd : SdCard) (p q : List Char) :
    (sd.mkdir p).fileExists q = sd.fileExists q := rfl

theorem beginRecording_of_recording (s : Logger) (g : Fix) (hr : s.recording = true) :
    beginRecording s g = some s := by
  simp [beginRecording, hr]

theorem beginRecording_of_old (s : Logger) (g : Fix) (hy : ¬ 2000 < g.year) :
    beginRecording s g = some s := by
  unfold beginRecording
  by_cases hr : s.recording = true <;> simp [hr, hy]

theorem beginRecording_overrun (s : Logger) (g : Fix) (hr : s.recording = false)
    (hy : 2000 < g.year) (h : ¬ namesFit g) : beginRecording s g = none := by
  unfold beginRecording
  by_cases hd : fitsIn (dirName g) dirCapacity
  · have hp : ¬ fitsIn (filePath g) filepathCapacity := fun hp => h ⟨hd, hp⟩
    simp [hr, hy, sprintf_of_fits _ _ hd, sprintf_of_not_fits _ _ hp]
  · simp [hr, hy, sprintf_of_not_fits _ _ hd]

theorem beginRecording_starts (s : Logger) (g : Fix) (hr : s.recording = false)
    (hy : 2000 < g.year) (hfit : namesFit g) :
    beginRecording s g = some (startTrack { s with dir := dirName g, filepath := filePath g }) := by
  simp [beginRecording, hr, hy, sprintf_of_fits _ _ hfit.1, sprintf_of_fits _ _ hfit.2]

theorem startTrack_fields (s : Logger) :
    (startTrack s).recording = true ∧ (startTrack s).dir = s.dir
      ∧ (startTrack s).filepath = s.filepath ∧ (startTrack s).cardError = s.cardError := by
  unfold startTrack
  by_cases he : (s.sd.mkdir s.dir).fileExists s.filepath = true <;>
    simp [he, Logger.closeFile]

theorem startTrack_creates (s : Logger) (hnone : s.sd.files s.filepath = none) :
    (startTrack s).sd.files s.filepath = some (header ++ trailer) := by
  unfold startTrack
  have he : s.sd.fileExists s.filepath = false := by
    simp [SdCard.fileExists, hnone]
  simp [mkdir_fileExists, mkdir_files, he, Logger.closeFile, SdCard.close,
    SdCard.openWrite, OpenFile.print, hnone]

theorem startTrack_keeps (s : Logger) (hsome : s.sd.fileExists s.filepath = true) :
    (startTrack s).sd.files = s.sd.files
    ∧ (startTrack s).sdCalls = s.sdCalls ++ [SdCall.mkdir s.dir, SdCall.exists s.filepath] := by
  unfold startTrack
  simp [mkdir_fileExists, mkdir_files, hsome]

theorem beginRecording_idle (s : Logger) (g : Fix) (hr : s.recording = false)
    (hy : 2000 < g.year) (hfit : namesFit g) :
    ∃ s1, beginRecording s g = some s1
      ∧ s1.recording = true ∧ s1.dir = dirName g ∧ s1.filepath = filePath g
      ∧ s1.cardError = s.cardError
      ∧ (s.sd.files (filePath g) = none →
          s1.sd.files (filePath g) = some (header ++ trailer))
      ∧ (s.sd.fileExists (filePath g) = true →
          s1.sd.files = s.sd.files
          ∧ s1.sdCalls = s.sdCalls ++ [SdCall.mkdir (dirName g), SdCall.exists (filePath g)]) := by
  obtain ⟨f1, f2, f3, f4⟩ :=
    startTrack_fields { s with dir := dirName g, filepath := filePath g }
  refine ⟨_, beginRecording_starts s g hr hy hfit, f1, f2, f3, f4, ?_, ?_⟩
  · intro hnone
    exact startTrack_creates { s with dir := dirName g, filepath := filePath g } hnone
  · intro hsome
    exact startTrack_keeps { s with dir := dirName g, filepath := filePath g } hsome

theorem beginRecording_fields (s : Logger) (g : Fix) (s1 : Logger)
    (h : beginRecording s g = some s1) : s1.cardError = s.cardError := by
  by_cases hr : s.recording = true
  · rw [beginRecording_of_recording s g hr] at h
    cases h; rfl
  · have hr0 : s.recording = false := by simpa using hr
    by_cases hy : 2000 < g.year
    · by_cases hfit : namesFit g
      · obtain ⟨t, ht, -, -, -, hc, -⟩ := beginRecording_idle s g hr0 hy hfit
        rw [ht] at h
        cases h
        exact hc
      · rw [beginRecording_overrun s g hr0 hy hfit] at h
        cases h
    · rw [beginRecording_of_old s g hy] at h
      cases h; rfl

theorem writeTrackPoint_skips (np : NumberPrinter) (s : Logger) (g : Fix)
    (h : s.recording = true → g.pDOP = 0) :
    ∃ s2, writeTrackPoint np s g = some s2 ∧ s2.sd = s.sd ∧ s2.sdCalls = s.sdCalls
      ∧ s2.recording = s.recording ∧ s2.dir = s.dir ∧ s2.filepath = s.filepath
      ∧ s2.cardError = s.cardError := by
  unfold writeTrackPoint
  by_cases hr : s.recording = true
  · exact ⟨s, by simp [hr, h hr], rfl, rfl, rfl, rfl, rfl, rfl⟩
  · exact ⟨{ s with ledRecording := false }, by simp [hr], rfl, rfl, rfl, rfl, rfl, rfl⟩

theorem writeTrackPoint_overrun (np : NumberPrinter) (s : Logger) (g : Fix)
    (hr : s.recording = true) (hp : g.pDOP ≠ 0) (h : ¬ dateFits g) :
    writeTrackPoint np s g = none := by
  simp [writeTrackPoint, hr, hp, sprintf_of_not_fits _ _ h]

theorem writeTrackPoint_writes (np : NumberPrinter) (s : Logger) (g : Fix)
    (hr : s.recording = true) (hp : g.pDOP ≠ 0) (hfit : dateFits g) :
    writeTrackPoint np s g
      = some (appendTrackPoint np { s with ledRecording := true, date := dateStamp g } g) := by
  simp [writeTrackPoint, hr, hp, sprintf_of_fits _ _ hfit]

theorem appendTrackPoint_fields (np : NumberPrinter) (s : Logger) (g : Fix) :
    (appendTrackPoint np s g).recording = s.recording
      ∧ (appendTrackPoint np s g).dir = s.dir
      ∧ (appendTrackPoint np s g).filepath = s.filepath
      ∧ (appendTrackPoint np s g).cardError = s.cardError := by
  simp [appendTrackPoint, Logger.closeFile]

theorem writeTrackPoint_fields (np : NumberPrinter) (s : Logger) (g : Fix) (s2 : Logger)
    (h : writeTrackPoint np s g = some s2) :
    s2.recording = s.recording ∧ s2.dir = s.dir ∧ s2.filepath = s.filepath
      ∧ s2.cardError = s.cardError := by
  by_cases hw : s.recording = true ∧ g.pDOP ≠ 0
  · by_cases hfit : dateFits g
    · rw [writeTrackPoint_writes np s g hw.1 hw.2 hfit] at h
      have e := Option.some.inj h
      rw [← e]
      exact appendTrackPoint_fields np _ g
    · rw [writeTrackPoint_overrun np s g hw.1 hw.2 hfit] at h
      cases h
  · have hskip : s.recording = true → g.pDOP = 0 := by
      intro hr
      by_contra hp
      exact hw ⟨hr, hp⟩
    obtain ⟨t, ht, -, -, k1, k2, k3, k4⟩ := writeTrackPoint_skips np s g hskip
    rw [ht] at h
    cases h
    exact ⟨k1, k2, k3, k4⟩

theorem appendTrackPoint_appends (np : NumberPrinter) (s : Logger) (g : Fix) (a : List Char)
    (hfile : s.sd.files s.filepath = some (a ++ trailer))
    (hsz : (a ++ trailer).length < 2 ^ 32) :
    (appendTrackPoint np s g).sd.files s.filepath
      = some (a ++ (trackPointPieces np s.date g).flatten ++ trailer) := by
  have hlen : (a ++ trailer).length = a.length + 24 := by
    rw [List.length_append, trailer_length]
  have hseek : seekTarget ((a ++ trailer).length % 2 ^ 32) = a.length := by
    rw [seekTarget_of_ge _ (by omega) hsz, hlen]; omega
  have h0 : ((s.sd.openWrite s.filepath).seek
      (seekTarget (s.sd.openWrite s.filepath).size)).Splits a trailer := by
    constructor
    · simp [OpenFile.seek, SdCard.openWrite, hfile]
    · simp only [OpenFile.seek, SdCard.openWrite, OpenFile.size, hfile, Option.getD_some, hseek]
      rw [if_pos (by omega)]
  have h1 := splits_foldl_print (trackPointPieces np s.date g) _ _ _ h0
  have h2 := splits_print _ _ _ trailer h1
  have hnil : (List.drop (trackPointPieces np s.date g).flatten.length trailer).drop
      trailer.length = [] := by
    apply List.drop_eq_nil_of_le
    simp [trailer_length]
  rw [hnil] at h2
  have hpath : ((printTrackPoint np s.date g ((s.sd.openWrite s.filepath).seek
      (seekTarget (s.sd.openWrite s.filepath).size))).print trailer).path = s.filepath := by
    rw [print_path, printTrackPoint_eq_foldl, foldl_print_path]
    rfl
  rw [← printTrackPoint_eq_foldl] at h2
  have hcontent := h2.1
  simp only [appendTrackPoint, Logger.closeFile, SdCard.close]
  rw [hpath, if_pos rfl, hcontent]
  simp

theorem writeTrackPoint_appends (np : NumberPrinter) (s : Logger) (g : Fix) (a : List Char)
    (hr : s.recording = true) (hp : g.pDOP ≠ 0) (hfit : dateFits g)
    (hfile : s.sd.files s.filepath = some (a ++ trailer))
    (hsz : (a ++ trailer).length < 2 ^ 32) :
    ∃ s2, writeTrackPoint np s g = some s2
      ∧ s2.sd.files s.filepath = some (a ++ trackPoint np g ++ trailer) :=
  ⟨_, writeTrackPoint_writes np s g hr hp hfit,
    appendTrackPoint_appends np { s with ledRecording := true, date := dateStamp g } g a hfile hsz⟩

/-! ## Where the closing tags occur -/

theorem clash_isPrefixOf (p : List Char) :
    ∀ (s rest : List Char), clash p s = true → p.isPrefixOf (s ++ rest) = false := by
  induction p with
  | nil => intro s rest h; simp [clash] at h
  | cons a as ih =>
    intro s rest h
    cases s with
    | nil => simp [clash] at h
    | cons b bs =>
      simp only [clash, Bool.or_eq_true, bne_iff_ne, ne_eq] at h
      simp only [List.cons_append, List.isPrefixOf, Bool.and_eq_false_imp, beq_iff_eq]
      intro hab
      rcases h with h | h
      · exact absurd hab h
      · exact ih bs rest h

theorem occurrences_append_free (p : List Char) :
    ∀ (s rest : List Char), freeOf p s = true →
      occurrences p (s ++ rest) = occurrences p rest := by
  intro s
  induction s with
  | nil => intro rest _; rfl
  | cons c cs ih =>
    intro rest h
    simp only [freeOf, Bool.and_eq_true] at h
    have hc := clash_isPrefixOf p (c :: cs) rest h.1
    rw [List.cons_append] at hc
    have hstep : occurrences p (c :: (cs ++ rest))
        = (if p.isPrefixOf (c :: (cs ++ rest)) then 1 else 0) + occurrences p (cs ++ rest) := rfl
    rw [List.cons_append, hstep, hc, ih rest h.2]
    simp

theorem occurrences_flatten_free (p : List Char) (ts : List (List Char)) :
    ∀ rest : List Char, (∀ t ∈ ts, freeOf p t = true) →
      occurrences p (ts.flatten ++ rest) = occurrences p rest := by
  induction ts with
  | nil => intro rest _; rfl
  | cons t ts ih =>
    intro rest h
    rw [List.flatten_cons, List.append_assoc,
      occurrences_append_free p t _ (h t (List.mem_cons_self _ _))]
    exact ih rest (fun u hu => h u (List.mem_cons_of_mem _ hu))

theorem freeOf_trailer_of_no_lt (s : List Char) (h : '<' ∉ s) : freeOf trailer s = true := by
  induction s with
  | nil => rfl
  | cons c cs ih =>
    have hc : '<' ≠ c := fun e => h (e ▸ List.mem_cons_self _ _)
    have hcs : '<' ∉ cs := fun e => h (List.mem_cons_of_mem _ e)
    have ht : trailer = '<' :: "/trkseg>\n</trk>\n</gpx>\n".toList := by decide
    simp only [freeOf, Bool.and_eq_true]
    refine ⟨?_, ih hcs⟩
    rw [ht]
    simp [clash, hc]

theorem padLeft_no_lt (pad : Char) (w : Nat) (t : List Char) (hp : pad ≠ '<') (ht : '<' ∉ t) :
    '<' ∉ padLeft pad w t := by
  intro h
  simp only [padLeft, List.mem_append, List.mem_replicate] at h
  rcases h with ⟨-, h⟩ | h
  · exact hp h.symm
  · exact ht h

theorem fmtZero_no_lt (w n : Nat) : '<' ∉ fmtZero w n :=
  padLeft_no_lt '0' w _ (by decide) (decimal_no_lt n)

theorem fmtSpace_no_lt (w n : Nat) : '<' ∉ fmtSpace w n :=
  padLeft_no_lt ' ' w _ (by decide) (decimal_no_lt n)

theorem dateStamp_no_lt (g : Fix) : '<' ∉ dateStamp g := by
  have h1 : '<' ∉ "-".toList := by decide
  have h2 : '<' ∉ "T".toList := by decide
  have h3 : '<' ∉ ":".toList := by decide
  have h4 : '<' ∉ "Z".toList := by decide
  simp [dateStamp, fmtSpace_no_lt, fmtZero_no_lt, h1, h2, h3, h4]

theorem trackPointPieces_free (np : NumberPrinter) (hnp : NoMarkup np) (g : Fix) :
    ∀ t ∈ trackPointPieces np (dateStamp g) g, freeOf trailer t = true := by
  have q := fun v d k => freeOf_trailer_of_no_lt _ (hnp.1 v d k)
  have hq := fun v k => freeOf_trailer_of_no_lt _ (hnp.2 v k)
  have l1 : freeOf trailer "<trkpt lat=\"".toList = true := by decide
  have l2 : freeOf trailer "\" lon=\"".toList = true := by decide
  have l3 : freeOf trailer ("\">".toList ++ crlf) = true := by decide
  have l4 : freeOf trailer "<time>".toList = true := by decide
  have l5 : freeOf trailer ("</time>".toList ++ crlf) = true := by decide
  have l6 : freeOf trailer "<pdop>".toList = true := by decide
  have l7 : freeOf trailer ("</pdop>".toList ++ crlf) = true := by decide
  have l8 : freeOf trailer "<ele>".toList = true := by decide
  have l9 : freeOf trailer "</ele>".toList = true := by decide
  have l10 : freeOf trailer "<speed>".toList = true := by decide
  have l11 : freeOf trailer ("</speed>".toList ++ crlf) = true := by decide
  have l12 : freeOf trailer "<course>".toList = true := by decide
  have l13 : freeOf trailer ("</course>".toList ++ crlf) = true := by decide
  have l14 : freeOf trailer "<sat>".toList = true := by decide
  have l15 : freeOf trailer ("</sat>".toList ++ crlf) = true := by decide
  have l16 : freeOf trailer "</trkpt>".toList = true := by decide
  have hd := freeOf_trailer_of_no_lt _ (dateStamp_no_lt g)
  have hn := freeOf_trailer_of_no_lt _ (decimal_no_lt g.numSV)
  unfold trackPointPieces
  simp only [List.forall_mem_cons]
  exact ⟨l1, q _ _ _, l2, q _ _ _, l3, l4, hd, l5, l6, hq _ _, l7, l8, q _ _ _, l9, l10,
    q _ _ _, l11, l12, q _ _ _, l13, l14, hn, l15, l16, fun _ h => absurd h (List.not_mem_nil _)⟩

theorem occurrences_trackPoints (np : NumberPrinter) (hnp : NoMarkup np) (gs : List Fix) :
    ∀ rest : List Char,
      occurrences trailer (trackPoints np gs ++ rest) = occurrences trailer rest := by
  induction gs with
  | nil => intro rest; rfl
  | cons g gs ih =>
    intro rest
    rw [trackPoints, List.append_assoc, trackPoint,
      occurrences_flatten_free trailer _ _ (trackPointPieces_free np hnp g)]
    exact ih rest

set_option maxRecDepth 100000 in
theorem header_free : freeOf trailer header = true := by decide

theorem occurrences_document (np : NumberPrinter) (hnp : NoMarkup np) (gs : List Fix) :
    occurrences trailer (header ++ trackPoints np gs ++ trailer) = 1 := by
  rw [List.append_assoc, occurrences_append_free trailer header _ header_free,
    occurrences_trackPoints np hnp gs]
  decide

theorem plainPrinter_noMarkup : NoMarkup plainPrinter :=
  ⟨fun _ _ _ => decimal_no_lt _, fun _ _ => decimal_no_lt _⟩

/-! ## One call of `loop` -/

theorem loop_of_fix (np : NumberPrinter) (s : Logger) (g : Fix) (hc : s.cardError = false)
    (hf : hasFix g) :
    loop np s (some g)
      = (beginRecording { s with ledGpsFix := true } g).bind fun s1 =>
          writeTrackPoint np s1 g := by
  have hfix : g.fixType = FIX_2D ∨ g.fixType = FIX_3D := hf
  simp [loop, hc, hfix]

theorem loop_of_no_fix (np : NumberPrinter) (s : Logger) (g : Fix) (hc : s.cardError = false)
    (hf : ¬ hasFix g) :
    loop np s (some g) = some { s with ledGpsFix := false } := by
  have hfix : ¬ (g.fixType = FIX_2D ∨ g.fixType = FIX_3D) := hf
  simp [loop, hc, hfix]

theorem loop_of_not_ready (np : NumberPrinter) (s : Logger) (hc : s.cardError = false) :
    loop np s none = some s := by
  simp [loop, hc]

theorem loop_of_cardError (np : NumberPrinter) (s : Logger) (i : Option Fix)
    (hc : s.cardError = true) :
    loop np s i = some { s with ledGpsFix := false, ledRecording := false } := by
  simp [loop, hc]

theorem loop_of_recording (np : NumberPrinter) (s : Logger) (g : Fix)
    (hc : s.cardError = false) (hr : s.recording = true) (hf : hasFix g) :
    loop np s (some g) = writeTrackPoint np { s with ledGpsFix := true } g := by
  rw [loop_of_fix np s g hc hf, beginRecording_of_recording { s with ledGpsFix := true } g hr]
  rfl

theorem loop_cardError (np : NumberPrinter) (s : Logger) (i : Option Fix) (s' : Logger)
    (h : loop np s i = some s') : s'.cardError = s.cardError := by
  by_cases hc : s.cardError = true
  · rw [loop_of_cardError np s i hc] at h
    cases h; rfl
  · have hc0 : s.cardError = false := by simpa using hc
    cases i with
    | none =>
      rw [loop_of_not_ready np s hc0] at h
      cases h; rfl
    | some g =>
      by_cases hf : hasFix g
      · rw [loop_of_fix np s g hc0 hf] at h
        cases hb : beginRecording { s with ledGpsFix := true } g with
        | none => rw [hb] at h; cases h
        | some s1 =>
          rw [hb] at h
          have h1 := beginRecording_fields _ g s1 hb
          have h2 := (writeTrackPoint_fields np s1 g s' h).2.2.2
          rw [h2, h1]
      · rw [loop_of_no_fix np s g hc0 hf] at h
        cases h; rfl

theorem loop_recording (np : NumberPrinter) (s : Logger) (i : Option Fix) (s' : Logger)
    (hr : s.recording = true) (h : loop np s i = some s') :
    s'.recording = true ∧ s'.dir = s.dir ∧ s'.filepath = s.filepath := by
  by_cases hc : s.cardError = true
  · rw [loop_of_cardError np s i hc] at h
    cases h; exact ⟨hr, rfl, rfl⟩
  · have hc0 : s.cardError = false := by simpa using hc
    cases i with
    | none =>
      rw [loop_of_not_ready np s hc0] at h
      cases h; exact ⟨hr, rfl, rfl⟩
    | some g =>
      by_cases hf : hasFix g
      · rw [loop_of_recording np s g hc0 hr hf] at h
        obtain ⟨w1, w2, w3, -⟩ := writeTrackPoint_fields np _ g s' h
        exact ⟨w1.trans hr, w2, w3⟩
      · rw [loop_of_no_fix np s g hc0 hf] at h
        cases h; exact ⟨hr, rfl, rfl⟩

theorem loop_recording_defined (np : NumberPrinter) (s : Logger) (i : Option Fix)
    (hr : s.recording = true) (hfit : ∀ f ∈ written [i], dateFits f) :
    ∃ s', loop np s i = some s' := by
  by_cases hc : s.cardError = true
  · exact ⟨_, loop_of_cardError np s i hc⟩
  · have hc0 : s.cardError = false := by simpa using hc
    cases i with
    | none => exact ⟨_, loop_of_not_ready np s hc0⟩
    | some g =>
      by_cases hf : hasFix g
      · rw [loop_of_recording np s g hc0 hr hf]
        by_cases hp : g.pDOP = 0
        · obtain ⟨t, ht, -⟩ := writeTrackPoint_skips np { s with ledGpsFix := true } g
            (fun _ => hp)
          exact ⟨t, ht⟩
        · have hd : dateFits g := hfit g (by simp [written, hf, hp])
          exact ⟨_, writeTrackPoint_writes np { s with ledGpsFix := true } g hr hp hd⟩
      · exact ⟨_, loop_of_no_fix np s g hc0 hf⟩

theorem loop_idle (np : NumberPrinter) (s : Logger) (i : Option Fix)
    (hr : s.recording = false) (hi : ¬ startsRecording i) :
    ∃ s', loop np s i = some s' ∧ s'.recording = false ∧ s'.cardError = s.cardError := by
  by_cases hc : s.cardError = true
  · exact ⟨_, loop_of_cardError np s i hc, hr, rfl⟩
  · have hc0 : s.cardError = false := by simpa using hc
    cases i with
    | none => exact ⟨_, loop_of_not_ready np s hc0, hr, rfl⟩
    | some g =>
      by_cases hf : hasFix g
      · have hy : ¬ 2000 < g.year := fun hy => hi ⟨hf, hy⟩
        obtain ⟨t, ht, -, -, k1, -, -, k4⟩ :=
          writeTrackPoint_skips np { s with ledGpsFix := true } g
            (fun h => by rw [show ({ s with ledGpsFix := true } : Logger).recording = false from hr]
                           at h; cases h)
        refine ⟨t, ?_, k1.trans hr, k4⟩
        rw [loop_of_fix np s g hc0 hf, beginRecording_of_old _ g hy]
        exact ht
      · exact ⟨_, loop_of_no_fix np s g hc0 hf, hr, rfl⟩

theorem loop_starts (np : NumberPrinter) (s : Logger) (g : Fix)
    (hr : s.recording = false) (hc : s.cardError = false) (hg : startsRecording (some g))
    (hnames : namesFit g) (hdate : g.pDOP ≠ 0 → dateFits g) :
    ∃ s', loop np s (some g) = some s' ∧ s'.recording = true ∧ s'.dir = dirName g
      ∧ s'.filepath = filePath g ∧ s'.cardError = false := by
  obtain ⟨s1, h1, b1, b2, b3, b4, -⟩ :=
    beginRecording_idle { s with ledGpsFix := true } g hr hg.2 hnames
  have hw : ∃ s', writeTrackPoint np s1 g = some s' := by
    by_cases hp : g.pDOP = 0
    · obtain ⟨t, ht, -⟩ := writeTrackPoint_skips np s1 g (fun _ => hp)
      exact ⟨t, ht⟩
    · exact ⟨_, writeTrackPoint_writes np s1 g b1 hp (hdate hp)⟩
  obtain ⟨s', hs'⟩ := hw
  obtain ⟨w1, w2, w3, w4⟩ := writeTrackPoint_fields np s1 g s' hs'
  refine ⟨s', ?_, w1.trans b1, w2.trans b2, w3.trans b3, ?_⟩
  · rw [loop_of_fix np s g hc hg.1, h1]
    exact hs'
  · rw [w4, b4]; exact hc

theorem loop_overrun_names (np : NumberPrinter) (s : Logger) (g : Fix)
    (hr : s.recording = false) (hc : s.cardError = false) (hg : startsRecording (some g))
    (h : ¬ namesFit g) : loop np s (some g) = none := by
  rw [loop_of_fix np s g hc hg.1, beginRecording_overrun { s with ledGpsFix := true } g hr hg.2 h]
  rfl

theorem loop_overrun_date (np : NumberPrinter) (s : Logger) (g : Fix)
    (hr : s.recording = true) (hc : s.cardError = false) (hf : hasFix g) (hp : g.pDOP ≠ 0)
    (h : ¬ dateFits g) : loop np s (some g) = none := by
  rw [loop_of_recording np s g hc hr hf]
  exact writeTrackPoint_overrun np { s with ledGpsFix := true } g hr hp h

/-! ## Sequences of calls of `loop` -/

theorem run_nil (np : NumberPrinter) (s : Logger) : run np s [] = some s := rfl

theorem run_cons (np : NumberPrinter) (s : Logger) (i : Option Fix) (rest : List (Option Fix)) :
    run np s (i :: rest) = (loop np s i).bind fun s1 => run np s1 rest := rfl

theorem run_cons_of (np : NumberPrinter) (s s1 : Logger) (i : Option Fix)
    (rest : List (Option Fix)) (h : loop np s i = some s1) :
    run np s (i :: rest) = run np s1 rest := by
  rw [run_cons, h]; rfl

theorem run_append_of (np : NumberPrinter) (xs ys : List (Option Fix)) :
    ∀ (s t : Logger), run np s xs = some t → run np s (xs ++ ys) = run np t ys := by
  induction xs with
  | nil =>
    intro s t h
    rw [run_nil] at h
    cases h; rfl
  | cons i rest ih =>
    intro s t h
    cases hl : loop np s i with
    | none => rw [run_cons, hl] at h; cases h
    | some s1 =>
      rw [run_cons_of np s s1 i rest hl] at h
      rw [List.cons_append, run_cons_of np s s1 i _ hl]
      exact ih s1 t h

theorem written_cons_subset (i : Option Fix) (rest : List (Option Fix)) :
    (∀ f ∈ written [i], f ∈ written (i :: rest))
    ∧ (∀ f ∈ written rest, f ∈ written (i :: rest)) := by
  cases i with
  | none => simp [written]
  | some g =>
    by_cases h : hasFix g ∧ g.pDOP ≠ 0
    · have e1 : written [some g] = [g] := by simp [written, h]
      have e2 : written (some g :: rest) = g :: written rest := by simp [written, h]
      rw [e1, e2]
      exact ⟨fun f hf => List.mem_cons.mpr (Or.inl (List.mem_singleton.mp hf)),
        fun f hf => List.mem_cons_of_mem _ hf⟩
    · simp [written, h]

theorem run_recording (np : NumberPrinter) (inputs : List (Option Fix)) :
    ∀ s : Logger, s.recording = true → (∀ f ∈ written inputs, dateFits f) →
      ∃ t, run np s inputs = some t ∧ t.recording = true ∧ t.dir = s.dir
        ∧ t.filepath = s.filepath := by
  induction inputs with
  | nil => intro s hr _; exact ⟨s, rfl, hr, rfl, rfl⟩
  | cons i rest ih =>
    intro s hr hfit
    obtain ⟨k1, k2⟩ := written_cons_subset i rest
    obtain ⟨s1, h1⟩ := loop_recording_defined np s i hr (fun f hf => hfit f (k1 f hf))
    obtain ⟨l1, l2, l3⟩ := loop_recording np s i s1 hr h1
    obtain ⟨t, ht, r1, r2, r3⟩ := ih s1 l1 (fun f hf => hfit f (k2 f hf))
    exact ⟨t, by rw [run_cons_of np s s1 i rest h1]; exact ht, r1, r2.trans l2, r3.trans l3⟩

theorem run_idle (np : NumberPrinter) (inputs : List (Option Fix)) :
    ∀ s : Logger, s.recording = false → (∀ i ∈ inputs, ¬ startsRecording i) →
      ∃ t, run np s inputs = some t ∧ t.recording = false ∧ t.cardError = s.cardError := by
  induction inputs with
  | nil => intro s hr _; exact ⟨s, rfl, hr, rfl⟩
  | cons i rest ih =>
    intro s hr h
    obtain ⟨s1, h1, l1, l2⟩ := loop_idle np s i hr (h i (List.mem_cons_self _ _))
    obtain ⟨t, ht, r1, r2⟩ := ih s1 l1 (fun j hj => h j (List.mem_cons_of_mem _ hj))
    exact ⟨t, by rw [run_cons_of np s s1 i rest h1]; exact ht, r1, r2.trans l2⟩

/-! ## The file of a recording logger -/

theorem run_recording_appends (np : NumberPrinter) (inputs : List (Option Fix)) :
    ∀ (s : Logger) (a : List Char), s.recording = true → s.cardError = false →
      s.sd.files s.filepath = some (a ++ trailer) →
      (∀ f ∈ written inputs, dateFits f) →
      a.length + (trackPoints np (written inputs)).length + 24 < 2 ^ 32 →
      ∃ t, run np s inputs = some t
        ∧ t.sd.files s.filepath = some (a ++ trackPoints np (written inputs) ++ trailer) := by
  induction inputs with
  | nil =>
    intro s a _ _ hfile _ _
    exact ⟨s, rfl, by simpa [written, trackPoints] using hfile⟩
  | cons i rest ih =>
    intro s a hr hc hfile hfit hsz
    obtain ⟨k1, k2⟩ := written_cons_subset i rest
    obtain ⟨s1, h1⟩ := loop_recording_defined np s i hr (fun f hf => hfit f (k1 f hf))
    obtain ⟨l1, -, l3⟩ := loop_recording np s i s1 hr h1
    have lc : s1.cardError = false := by rw [loop_cardError np s i s1 h1]; exact hc
    rw [run_cons_of np s s1 i rest h1, ← l3]
    cases i with
    | none =>
      rw [loop_of_not_ready np s hc] at h1
      cases h1
      exact ih s a hr hc hfile (fun f hf => hfit f (k2 f hf)) hsz
    | some g =>
      by_cases hf : hasFix g
      · rw [loop_of_recording np s g hc hr hf] at h1
        by_cases hp : g.pDOP = 0
        · have hw : written (some g :: rest) = written rest := by
            simp [written, hp]
          obtain ⟨t, ht, hsd, -⟩ :=
            writeTrackPoint_skips np { s with ledGpsFix := true } g (fun _ => hp)
          rw [ht] at h1
          cases h1
          rw [hw] at hsz hfit ⊢
          apply ih _ a l1 lc _ hfit hsz
          rw [hsd, l3]; exact hfile
        · have hw : written (some g :: rest) = g :: written rest := by
            simp [written, hf, hp]
          have hd : dateFits g := hfit g (by rw [hw]; exact List.mem_cons_self _ _)
          rw [hw, trackPoints] at hsz ⊢
          rw [List.length_append] at hsz
          obtain ⟨t, ht, happ⟩ := writeTrackPoint_appends np { s with ledGpsFix := true } g a
            hr hp hd hfile (by rw [List.length_append, trailer_length]; omega)
          rw [ht] at h1
          cases h1
          have hfile2 : s1.sd.files s1.filepath = some (a ++ trackPoint np g ++ trailer) := by
            rw [l3]; exact happ
          obtain ⟨u, hu, hfin⟩ := ih s1 (a ++ trackPoint np g) l1 lc hfile2
            (fun f hf => hfit f (k2 f hf)) (by rw [List.length_append]; omega)
          refine ⟨u, hu, ?_⟩
          rw [hfin]
          simp [List.append_assoc]
      · have hw : written (some g :: rest) = written rest := by
          simp [written, hf]
        rw [loop_of_no_fix np s g hc hf] at h1
        cases h1
        rw [hw] at hsz hfit ⊢
        exact ih _ a l1 lc hfile hfit hsz

/-! ## The names and the buffers -/

theorem name_lengths (g : Fix) (hy : g.year ≤ 9999) (hmo : g.month ≤ 99) (hd : g.day ≤ 99)
    (hh : g.hour ≤ 99) (hmi : g.min ≤ 99) (hs : g.sec ≤ 99) :
    (dirName g).length = 9 ∧ (filePath g).length = 18 ∧ (dateStamp g).length = 20 := by
  have y0 := (decimal_four '0' g.year hy).1
  have y1 := (decimal_four ' ' g.year hy).1
  have a := fmtZero_two_length _ hmo
  have b := fmtZero_two_length _ hd
  have c := fmtZero_two_length _ hh
  have d := fmtZero_two_length _ hmi
  have e := fmtZero_two_length _ hs
  have c1 : ("/".toList).length = 1 := rfl
  have c2 : (".GPX".toList).length = 4 := rfl
  have c3 : ("-".toList).length = 1 := rfl
  have c4 : ("T".toList).length = 1 := rfl
  have c5 : (":".toList).length = 1 := rfl
  have c6 : ("Z".toList).length = 1 := rfl
  simp only [dirName, filePath, dateStamp, fmtSpace, List.length_append, c1, c2, c3, c4, c5, c6,
    a, b, c, d, e, y1]
  simp only [fmtZero, y0]
  exact ⟨trivial, trivial, trivial⟩

theorem name_lengths_ge (g : Fix) :
    (dirName g).length = 1 + (fmtZero 4 g.year).length + (fmtZero 2 g.month).length
        + (fmtZero 2 g.day).length
    ∧ (filePath g).length = (dirName g).length + 1 + (fmtZero 2 g.hour).length
        + (fmtZero 2 g.min).length + 4
    ∧ (dateStamp g).length = (fmtSpace 4 g.year).length + 1 + (fmtZero 2 g.month).length + 1
        + (fmtZero 2 g.day).length + 1 + (fmtZero 2 g.hour).length + 1
        + (fmtZero 2 g.min).length + 1 + (fmtZero 2 g.sec).length + 1 := by
  have c1 : ("/".toList).length = 1 := rfl
  have c2 : (".GPX".toList).length = 4 := rfl
  have c3 : ("-".toList).length = 1 := rfl
  have c4 : ("T".toList).length = 1 := rfl
  have c5 : (":".toList).length = 1 := rfl
  have c6 : ("Z".toList).length = 1 := rfl
  simp only [dirName, filePath, dateStamp, List.length_append, c1, c2, c3, c4, c5, c6]
  exact ⟨trivial, trivial, trivial⟩

theorem fmt_length (pad : Char) (w n : Nat) :
    w ≤ (padLeft pad w (decimal n)).length
    ∧ (10 ^ w ≤ n → w + 1 ≤ (padLeft pad w (decimal n)).length) := by
  rw [padLeft_length]
  refine ⟨by omega, fun h => ?_⟩
  have := decimal_length_ge w n h
  omega

theorem dirName_overrun (f : Fix) (h : 9999 < f.year ∨ 99 < f.month ∨ 99 < f.day) :
    ¬ fitsIn (dirName f) dirCapacity := by
  intro hfit
  obtain ⟨e1, -, -⟩ := name_lengths_ge f
  have y := fmt_length '0' 4 f.year
  have m := fmt_length '0' 2 f.month
  have d := fmt_length '0' 2 f.day
  simp only [fitsIn, dirCapacity, e1, fmtZero] at hfit y m d
  rcases h with h | h | h
  · have := y.2 (by norm_num; omega); omega
  · have := m.2 (by norm_num; omega); omega
  · have := d.2 (by norm_num; omega); omega

theorem filePath_overrun (f : Fix) (h : 99 < f.hour ∨ 99 < f.min) :
    ¬ fitsIn (filePath f) filepathCapacity := by
  intro hfit
  obtain ⟨e1, e2, -⟩ := name_lengths_ge f
  have y := fmt_length '0' 4 f.year
  have m := fmt_length '0' 2 f.month
  have d := fmt_length '0' 2 f.day
  have hh := fmt_length '0' 2 f.hour
  have mi := fmt_length '0' 2 f.min
  simp only [fitsIn, filepathCapacity, e2, e1, fmtZero] at hfit y m d hh mi
  rcases h with h | h
  · have := hh.2 (by norm_num; omega); omega
  · have := mi.2 (by norm_num; omega); omega

theorem dateStamp_overrun (f : Fix)
    (h : 9999 < f.year ∨ 99 < f.month ∨ 99 < f.day ∨ 99 < f.hour ∨ 99 < f.min ∨ 99 < f.sec) :
    ¬ fitsIn (dateStamp f) dateCapacity := by
  intro hfit
  obtain ⟨-, -, e3⟩ := name_lengths_ge f
  have y := fmt_length ' ' 4 f.year
  have m := fmt_length '0' 2 f.month
  have d := fmt_length '0' 2 f.day
  have hh := fmt_length '0' 2 f.hour
  have mi := fmt_length '0' 2 f.min
  have sc := fmt_length '0' 2 f.sec
  simp only [fitsIn, dateCapacity, e3, fmtZero, fmtSpace] at hfit y m d hh mi sc
  rcases h with h | h | h | h | h | h
  · have := y.2 (by norm_num; omega); omega
  · have := m.2 (by norm_num; omega); omega
  · have := d.2 (by norm_num; omega); omega
  · have := hh.2 (by norm_num; omega); omega
  · have := mi.2 (by norm_num; omega); omega
  · have := sc.2 (by norm_num; omega); omega

/-- The names fit `dir` and `filepath` exactly when the year has at most four
digits and month, day, hour and minute at most two. -/
theorem namesFit_iff (g : Fix) :
    namesFit g ↔ g.year ≤ 9999 ∧ g.month ≤ 99 ∧ g.day ≤ 99 ∧ g.hour ≤ 99 ∧ g.min ≤ 99 := by
  constructor
  · rintro ⟨f1, f2⟩
    refine ⟨?_, ?_, ?_, ?_, ?_⟩
    · by_contra h; exact dirName_overrun g (Or.inl (by omega)) f1
    · by_contra h; exact dirName_overrun g (Or.inr (Or.inl (by omega))) f1
    · by_contra h; exact dirName_overrun g (Or.inr (Or.inr (by omega))) f1
    · by_contra h; exact filePath_overrun g (Or.inl (by omega)) f2
    · by_contra h; exact filePath_overrun g (Or.inr (by omega)) f2
  · rintro ⟨hy, hmo, hd, hh, hmi⟩
    obtain ⟨e1, e2, -⟩ := name_lengths_ge g
    have y := (decimal_four '0' g.year hy).1
    have a := fmtZero_two_length _ hmo
    have b := fmtZero_two_length _ hd
    have c := fmtZero_two_length _ hh
    have d := fmtZero_two_length _ hmi
    have y' : (fmtZero 4 g.year).length = 4 := y
    constructor
    · simp only [fitsIn, dirCapacity, e1, y', a, b]
      omega
    · simp only [fitsIn, filepathCapacity, e2, e1, y', a, b, c, d]
      omega

/-- The timestamp fits `date` exactly when the year has at most four digits and
month, day, hour, minute and second at most two. -/
theorem dateFits_iff (g : Fix) :
    dateFits g ↔ g.year ≤ 9999 ∧ g.month ≤ 99 ∧ g.day ≤ 99 ∧ g.hour ≤ 99 ∧ g.min ≤ 99
      ∧ g.sec ≤ 99 := by
  constructor
  · intro f3
    refine ⟨?_, ?_, ?_, ?_, ?_, ?_⟩
    · by_contra h; exact dateStamp_overrun g (Or.inl (by omega)) f3
    · by_contra h; exact dateStamp_overrun g (Or.inr (Or.inl (by omega))) f3
    · by_contra h; exact dateStamp_overrun g (Or.inr (Or.inr (Or.inl (by omega)))) f3
    · by_contra h; exact dateStamp_overrun g (Or.inr (Or.inr (Or.inr (Or.inl (by omega))))) f3
    · by_contra h
      exact dateStamp_overrun g (Or.inr (Or.inr (Or.inr (Or.inr (Or.inl (by omega)))))) f3
    · by_contra h
      exact dateStamp_overrun g (Or.inr (Or.inr (Or.inr (Or.inr (Or.inr (by omega)))))) f3
  · rintro ⟨hy, hmo, hd, hh, hmi, hs⟩
    have := (name_lengths g hy hmo hd hh hmi hs).2.2
    simp [dateFits, fitsIn, this, dateCapacity]

/-- Claim C9: on the fix that takes the logger from idle to recording, with a year of
at most four digits and month, day, hour and minute of at most two, the two
calls of `sprintf` at lines 111-112 fit their buffers and give `dir` as `/` and
the year, month and day in 4, 2 and 2 decimal digits, and `filepath` as `dir`,
`/`, the hour and minute in 2 digits each, and `.GPX`; nothing but these five
fields of the fix enters either name. The call of `loop` ends with these names
whenever it is defined, and it is defined when the fix is not written (pDOP 0)
or its second has at most two digits. -/
theorem names_of_first_fix (np : NumberPrinter) (s : Logger) (g : Fix)
    (hc : s.cardError = false) (hr : s.recording = false)
    (hf : hasFix g) (hy : 2000 < g.year) (hy4 : g.year ≤ 9999)
    (hmo : g.month ≤ 99) (hd : g.day ≤ 99) (hh : g.hour ≤ 99) (hmi : g.min ≤ 99) :
    (∃ s1, beginRecording { s with ledGpsFix := true } g = some s1
      ∧ s1.recording = true
      ∧ s1.dir =
          '/' :: [digitChar (g.year / 1000), digitChar (g.year / 100 % 10),
            digitChar (g.year / 10 % 10), digitChar (g.year % 10),
            digitChar (g.month / 10), digitChar (g.month % 10),
            digitChar (g.day / 10), digitChar (g.day % 10)]
      ∧ s1.filepath =
          s1.dir ++ '/' :: [digitChar (g.hour / 10), digitChar (g.hour % 10),
            digitChar (g.min / 10), digitChar (g.min % 10)] ++ ".GPX".toList)
    ∧ (g.pDOP = 0 ∨ g.sec ≤ 99 →
        ∃ s', loop np s (some g) = some s'
          ∧ s'.recording = true
          ∧ s'.dir =
              '/' :: [digitChar (g.year / 1000), digitChar (g.year / 100 % 10),
                digitChar (g.year / 10 % 10), digitChar (g.year % 10),
                digitChar (g.month / 10), digitChar (g.month % 10),
                digitChar (g.day / 10), digitChar (g.day % 10)]
          ∧ s'.filepath =
              s'.dir ++ '/' :: [digitChar (g.hour / 10), digitChar (g.hour % 10),
                digitChar (g.min / 10), digitChar (g.min % 10)] ++ ".GPX".toList)
    ∧ (∀ s', loop np s (some g) = some s' →
        s'.recording = true
        ∧ s'.dir =
            '/' :: [digitChar (g.year / 1000), digitChar (g.year / 100 % 10),
              digitChar (g.year / 10 % 10), digitChar (g.year % 10),
              digitChar (g.month / 10), digitChar (g.month % 10),
              digitChar (g.day / 10), digitChar (g.day % 10)]
        ∧ s'.filepath =
            s'.dir ++ '/' :: [digitChar (g.hour / 10), digitChar (g.hour % 10),
              digitChar (g.min / 10), digitChar (g.min % 10)] ++ ".GPX".toList) := by
  have edir : dirName g =
      '/' :: [digitChar (g.year / 1000), digitChar (g.year / 100 % 10),
        digitChar (g.year / 10 % 10), digitChar (g.year % 10),
        digitChar (g.month / 10), digitChar (g.month % 10),
        digitChar (g.day / 10), digitChar (g.day % 10)] := by
    simp [dirName, fmtZero_four _ hy4, fmtZero_two _ hmo, fmtZero_two _ hd]
  have epath : filePath g =
      dirName g ++ '/' :: [digitChar (g.hour / 10), digitChar (g.hour % 10),
        digitChar (g.min / 10), digitChar (g.min % 10)] ++ ".GPX".toList := by
    simp [dirName, filePath, fmtZero_four _ hy4, fmtZero_two _ hmo, fmtZero_two _ hd,
      fmtZero_two _ hh, fmtZero_two _ hmi]
  have hnames : namesFit g := (namesFit_iff g).2 ⟨hy4, hmo, hd, hh, hmi⟩
  obtain ⟨s1, h1, b1, b2, b3, -⟩ :=
    beginRecording_idle { s with ledGpsFix := true } g hr hy hnames
  have key : ∀ s', loop np s (some g) = some s' →
      s'.recording = true ∧ s'.dir = dirName g ∧ s'.filepath = filePath g := by
    intro s' hs'
    rw [loop_of_fix np s g hc hf, h1] at hs'
    obtain ⟨w1, w2, w3, -⟩ := writeTrackPoint_fields np s1 g s' hs'
    exact ⟨w1.trans b1, w2.trans b2, w3.trans b3⟩
  refine ⟨⟨s1, h1, b1, ?_, ?_⟩, ?_, ?_⟩
  · rw [b2, edir]
  · rw [b3, b2, epath]
  · intro hsec
    have hdef : ∃ s', loop np s (some g) = some s' := by
      rw [loop_of_fix np s g hc hf, h1]
      by_cases hp : g.pDOP = 0
      · obtain ⟨t, ht, -⟩ := writeTrackPoint_skips np s1 g (fun _ => hp)
        exact ⟨t, ht⟩
      · have hs : g.sec ≤ 99 := hsec.resolve_left hp
        exact ⟨_, writeTrackPoint_writes np s1 g b1 hp
          ((dateFits_iff g).2 ⟨hy4, hmo, hd, hh, hmi, hs⟩)⟩
    obtain ⟨s', hs'⟩ := hdef
    obtain ⟨k1, k2, k3⟩ := key s' hs'
    refine ⟨s', hs', k1, ?_, ?_⟩
    · rw [k2, edir]
    · rw [k3, k2, epath]
  · intro s' hs'
    obtain ⟨k1, k2, k3⟩ := key s' hs'
    refine ⟨k1, ?_, ?_⟩
    · rw [k2, edir]
    · rw [k3, k2, epath]

/-- Claim C9 at a concrete input: the sample fix gives `/20190102` and
`/20190102/0304.GPX`. -/
theorem names_of_first_fix_witness :
    ∃ s', loop plainPrinter (Logger.start emptyCard) (some sampleFix) = some s'
      ∧ s'.dir = "/20190102".toList ∧ s'.filepath = "/20190102/0304.GPX".toList :=
  have h := names_of_first_fix plainPrinter (Logger.start emptyCard) sampleFix rfl rfl
    (by decide) (by decide) (by decide) (by decide) (by decide) (by decide) (by decide)
  match h.2.1 (Or.inr (by decide)) with
  | ⟨s', h1, _, h3, h4⟩ => ⟨s', h1, h3.trans (by decide), h4.trans (by rw [h3]; decide)⟩

/-- Claim C10: for a fix with `2000 < year ≤ 9999` and month, day, hour, minute and
second of at most 99, the three formatted strings have lengths 9, 18 and 20,
which with the NUL are exactly the capacities 10, 19 and 21 of `dir`,
`filepath` and `date`. For any fix the three strings fit their buffers exactly
when these upper bounds hold: a longer year, month or day overflows `dir`, a
longer hour or minute overflows `filepath`, a longer second overflows `date`. -/
theorem buffers_fit_exactly (g : Fix) (_hy0 : 2000 < g.year) (hy : g.year ≤ 9999)
    (hmo : g.month ≤ 99) (hd : g.day ≤ 99) (hh : g.hour ≤ 99) (hmi : g.min ≤ 99)
    (hs : g.sec ≤ 99) :
    (dirName g).length = 9 ∧ (filePath g).length = 18 ∧ (dateStamp g).length = 20
    ∧ (dirName g).length + 1 = dirCapacity
    ∧ (filePath g).length + 1 = filepathCapacity
    ∧ (dateStamp g).length + 1 = dateCapacity
    ∧ (∀ f : Fix,
        (fitsIn (dirName f) dirCapacity ∧ fitsIn (filePath f) filepathCapacity
          ∧ fitsIn (dateStamp f) dateCapacity
        ↔ f.year ≤ 9999 ∧ f.month ≤ 99 ∧ f.day ≤ 99 ∧ f.hour ≤ 99 ∧ f.min ≤ 99 ∧ f.sec ≤ 99))
    ∧ (∀ f : Fix, 9999 < f.year ∨ 99 < f.month ∨ 99 < f.day → ¬ fitsIn (dirName f) dirCapacity)
    ∧ (∀ f : Fix, 99 < f.hour ∨ 99 < f.min → ¬ fitsIn (filePath f) filepathCapacity)
    ∧ (∀ f : Fix, 99 < f.sec → ¬ fitsIn (dateStamp f) dateCapacity) := by
  obtain ⟨l1, l2, l3⟩ := name_lengths g hy hmo hd hh hmi hs
  have kdir : ∀ f : Fix, 9999 < f.year ∨ 99 < f.month ∨ 99 < f.day →
      ¬ fitsIn (dirName f) dirCapacity := by
    intro f h hfit
    obtain ⟨e1, -, -⟩ := name_lengths_ge f
    have y := fmt_length '0' 4 f.year
    have m := fmt_length '0' 2 f.month
    have d := fmt_length '0' 2 f.day
    simp only [fitsIn, dirCapacity, e1, fmtZero] at hfit y m d
    rcases h with h | h | h
    · have := y.2 (by norm_num; omega); omega
    · have := m.2 (by norm_num; omega); omega
    · have := d.2 (by norm_num; omega); omega
  have kpath : ∀ f : Fix, 99 < f.hour ∨ 99 < f.min →
      ¬ fitsIn (filePath f) filepathCapacity := by
    intro f h hfit
    obtain ⟨e1, e2, -⟩ := name_lengths_ge f
    have y := fmt_length '0' 4 f.year
    have m := fmt_length '0' 2 f.month
    have d := fmt_length '0' 2 f.day
    have hh := fmt_length '0' 2 f.hour
    have mi := fmt_length '0' 2 f.min
    simp only [fitsIn, filepathCapacity, e2, e1, fmtZero] at hfit y m d hh mi
    rcases h with h | h
    · have := hh.2 (by norm_num; omega); omega
    · have := mi.2 (by norm_num; omega); omega
  have kdate : ∀ f : Fix, 99 < f.sec → ¬ fitsIn (dateStamp f) dateCapacity := by
    intro f h hfit
    obtain ⟨-, -, e3⟩ := name_lengths_ge f
    have y := fmt_length ' ' 4 f.year
    have m := fmt_length '0' 2 f.month
    have d := fmt_length '0' 2 f.day
    have hh := fmt_length '0' 2 f.hour
    have mi := fmt_length '0' 2 f.min
    have sc := fmt_length '0' 2 f.sec
    simp only [fitsIn, dateCapacity, e3, fmtZero, fmtSpace] at hfit y m d hh mi sc
    have := sc.2 (by norm_num; omega); omega
  refine ⟨l1, l2, l3, by rw [l1]; rfl, by rw [l2]; rfl, by rw [l3]; rfl, ?_, kdir, kpath, kdate⟩
  intro f
  constructor
  · rintro ⟨f1, f2, f3⟩
    refine ⟨?_, ?_, ?_, ?_, ?_, ?_⟩
    · by_contra h; exact kdir f (Or.inl (by omega)) f1
    · by_contra h; exact kdir f (Or.inr (Or.inl (by omega))) f1
    · by_contra h; exact kdir f (Or.inr (Or.inr (by omega))) f1
    · by_contra h; exact kpath f (Or.inl (by omega)) f2
    · by_contra h; exact kpath f (Or.inr (by omega)) f2
    · by_contra h; exact kdate f (by omega) f3
  · rintro ⟨hy, hmo, hd, hh, hmi, hs⟩
    obtain ⟨m1, m2, m3⟩ := name_lengths f hy hmo hd hh hmi hs
    simp [fitsIn, m1, m2, m3, dirCapacity, filepathCapacity, dateCapacity]

/-- Claim C10 at a concrete input: the strings of the sample fix, and the year 10000,
whose `dir` does not fit. -/
theorem buffers_fit_exactly_witness :
    (dirName sampleFix).length = 9 ∧ (filePath sampleFix).length = 18
    ∧ (dateStamp sampleFix).length = 20
    ∧ ¬ fitsIn (dirName { sampleFix with year := 10000 }) dirCapacity :=
  have h := buffers_fit_exactly sampleFix (by decide) (by decide) (by decide) (by decide)
    (by decide) (by decide) (by decide)
  ⟨h.1, h.2.1, h.2.2.1,
    h.2.2.2.2.2.2.2.1 { sampleFix with year := 10000 } (Or.inl (by decide))⟩

/-! ## The track document -/

/-- Claim C2 as stated fails for a fix whose names do not fit the buffers. The fix
10000-01-02 03:04:05 (3D, pDOP 1.50) on an empty card is a first qualifying
fix and would be appended, but `dir` would be `/100000102` (10 characters and a
NUL for 10 bytes) and `filepath` `/100000102/0304.GPX` (19 characters and a NUL
for 19 bytes): `sprintf` writes past both buffers, neither the block that
creates the document nor the call of `loop` has a defined result, and the file
is not shown to hold the header, the track point and the closing tags. -/
theorem track_file_lost_on_overrun :
    hasFix { sampleFix with year := 10000 }
    ∧ 2000 < ({ sampleFix with year := 10000 } : Fix).year
    ∧ ({ sampleFix with year := 10000 } : Fix).pDOP ≠ 0
    ∧ emptyCard.files (filePath { sampleFix with year := 10000 }) = none
    ∧ dirName { sampleFix with year := 10000 } = "/100000102".toList
    ∧ ¬ fitsIn (dirName { sampleFix with year := 10000 }) dirCapacity
    ∧ filePath { sampleFix with year := 10000 } = "/100000102/0304.GPX".toList
    ∧ ¬ fitsIn (filePath { sampleFix with year := 10000 }) filepathCapacity
    ∧ beginRecording (Logger.start emptyCard) { sampleFix with year := 10000 } = none
    ∧ loop plainPrinter (Logger.start emptyCard) (some { sampleFix with year := 10000 }) = none
    ∧ run plainPrinter (Logger.start emptyCard) [some { sampleFix with year := 10000 }]
        = none
    ∧ ¬ (∃ t, run plainPrinter (Logger.start emptyCard) [some { sampleFix with year := 10000 }]
          = some t
        ∧ t.sd.files (filePath { sampleFix with year := 10000 })
          = some (header ++ trackPoint plainPrinter { sampleFix with year := 10000 }
              ++ trailer)) := by
  have hl : loop plainPrinter (Logger.start emptyCard) (some { sampleFix with year := 10000 })
      = none :=
    loop_overrun_names plainPrinter (Logger.start emptyCard) _ rfl rfl ⟨by decide, by decide⟩
      (by decide)
  have hrun : run plainPrinter (Logger.start emptyCard)
      [some { sampleFix with year := 10000 }] = none := by
    rw [run_cons, hl]
    rfl
  refine ⟨by decide, by decide, by decide, rfl, by decide, by decide, by decide, by decide,
    beginRecording_overrun _ _ rfl (by decide) (by decide), hl, hrun, ?_⟩
  rintro ⟨t, ht, -⟩
  rw [hrun] at ht
  cases ht

/-- Claim C2, amended: for fixes whose formatted names and timestamps fit their
buffers (year at most 9999, the two-digit fields at most 99), from an idle
logger and a card on which the file named by the fix `g` does not exist:
creating the document leaves `header ++ trailer` (size `header.length + 24`);
one append to that document leaves `header ++ trackPoint ++ trailer` (size
`header.length + L + 24`); and after `loop` has run on `g` and then on any
further inputs, the file is the header, the track points of the fixes that were
appended, in order, and the closing tags, which are its last 24 bytes and begin
at exactly one position. The numbers are printed without `<` and the file
stays below `2 ^ 32` bytes. -/
theorem track_file_after_appends (np : NumberPrinter) (s : Logger) (g : Fix)
    (post : List (Option Fix)) (hnp : NoMarkup np)
    (hr : s.recording = false) (hc : s.cardError = false)
    (hg : hasFix g) (hy : 2000 < g.year)
    (hnames : namesFit g) (hdates : ∀ f ∈ written (some g :: post), dateFits f)
    (hnone : s.sd.files (filePath g) = none)
    (hsz : header.length + (trackPoints np (written (some g :: post))).length + 24 < 2 ^ 32) :
    (∃ s1, beginRecording s g = some s1
      ∧ s1.sd.files (filePath g) = some (header ++ trailer))
    ∧ (header ++ trailer).length = header.length + 24
    ∧ (∀ g1 : Fix, g1.pDOP ≠ 0 → dateFits g1 →
        ∃ s1 s2, beginRecording s g = some s1 ∧ writeTrackPoint np s1 g1 = some s2
          ∧ s2.sd.files (filePath g) = some (header ++ trackPoint np g1 ++ trailer)
          ∧ (header ++ trackPoint np g1 ++ trailer).length
            = header.length + (trackPoint np g1).length + 24)
    ∧ (∃ t, run np s (some g :: post) = some t
        ∧ t.sd.files (filePath g)
          = some (header ++ trackPoints np (written (some g :: post)) ++ trailer))
    ∧ (header ++ trackPoints np (written (some g :: post)) ++ trailer).length
        = header.length + (trackPoints np (written (some g :: post))).length + 24
    ∧ (header ++ trackPoints np (written (some g :: post)) ++ trailer).drop
        (header.length + (trackPoints np (written (some g :: post))).length) = trailer
    ∧ occurrences trailer (header ++ trackPoints np (written (some g :: post)) ++ trailer)
        = 1 := by
  have hlen : ∀ x : List Char, (header ++ x ++ trailer).length = header.length + x.length + 24 := by
    intro x
    simp only [List.length_append, trailer_length]
  have h365 : (header ++ trailer).length < 2 ^ 32 := by
    rw [header_trailer_length]; norm_num
  obtain ⟨k1, k2⟩ := written_cons_subset (some g) post
  obtain ⟨s1, h1, b1, -, b3, -, bnone, -⟩ := beginRecording_idle s g hr hy hnames
  have c1 := bnone hnone
  refine ⟨⟨s1, h1, c1⟩, by simp [List.length_append, trailer_length], ?_, ?_, hlen _, ?_,
    occurrences_document np hnp _⟩
  · intro g1 hp1 hd1
    have hfile : s1.sd.files s1.filepath = some (header ++ trailer) := by rw [b3]; exact c1
    obtain ⟨s2, h2, happ⟩ := writeTrackPoint_appends np s1 g1 header b1 hp1 hd1 hfile h365
    rw [b3] at happ
    exact ⟨s1, s2, h1, h2, happ, hlen _⟩
  · -- the first call of `loop`, then the rest
    have hr' : ({ s with ledGpsFix := true } : Logger).recording = false := hr
    have hnone' : ({ s with ledGpsFix := true } : Logger).sd.files (filePath g) = none := hnone
    obtain ⟨u1, e0, e1, -, e3, e4, enone, -⟩ :=
      beginRecording_idle { s with ledGpsFix := true } g hr' hy hnames
    have d1 := enone hnone'
    have hfile : u1.sd.files u1.filepath = some (header ++ trailer) := by rw [e3]; exact d1
    have hloop : loop np s (some g) = writeTrackPoint np u1 g := by
      rw [loop_of_fix np s g hc hg, e0]; rfl
    by_cases hp : g.pDOP = 0
    · have hw : written (some g :: post) = written post := by simp [written, hp]
      obtain ⟨u2, w0, wsd, -, w1, -, w3, w4⟩ := writeTrackPoint_skips np u1 g (fun _ => hp)
      rw [hw] at hsz hdates ⊢
      obtain ⟨t, ht, hfin⟩ := run_recording_appends np post u2 header (w1.trans e1)
        (w4.trans (e4.trans hc)) (by rw [wsd, w3]; exact hfile) hdates hsz
      refine ⟨t, ?_, ?_⟩
      · rw [run_cons_of np s u2 _ _ (hloop.trans w0)]; exact ht
      · rw [w3, e3] at hfin; exact hfin
    · have hw : written (some g :: post) = g :: written post := by simp [written, hg, hp]
      have hd : dateFits g := hdates g (by rw [hw]; exact List.mem_cons_self _ _)
      rw [hw, trackPoints] at hsz ⊢
      rw [List.length_append] at hsz
      obtain ⟨u2, w0, happ⟩ := writeTrackPoint_appends np u1 g header e1 hp hd hfile h365
      obtain ⟨w1, -, w3, w4⟩ := writeTrackPoint_fields np u1 g u2 w0
      have hfile2 : u2.sd.files u2.filepath = some (header ++ trackPoint np g ++ trailer) := by
        rw [w3]; exact happ
      obtain ⟨t, ht, hfin⟩ := run_recording_appends np post u2 (header ++ trackPoint np g)
        (w1.trans e1) (w4.trans (e4.trans hc)) hfile2 (fun f hf => hdates f (k2 f hf))
        (by rw [List.length_append]; omega)
      refine ⟨t, ?_, ?_⟩
      · rw [run_cons_of np s u2 _ _ (hloop.trans w0)]; exact ht
      · rw [w3, e3] at hfin
        rw [hfin]
        simp [List.append_assoc]
  · apply List.drop_left'
    simp [List.length_append]

set_option maxRecDepth 100000 in
/-- Claim C2, amended, at a concrete input: an empty card, the sample fix twice and a
call without a message in between. -/
theorem track_file_after_appends_witness :
    (∃ t, run plainPrinter (Logger.start emptyCard) [some sampleFix, none, some sampleFix]
          = some t
        ∧ t.sd.files (filePath sampleFix)
          = some (header
              ++ trackPoints plainPrinter (written [some sampleFix, none, some sampleFix])
              ++ trailer))
    ∧ (written [some sampleFix, none, some sampleFix]).length = 2
    ∧ occurrences trailer (header
          ++ trackPoints plainPrinter (written [some sampleFix, none, some sampleFix])
          ++ trailer) = 1 :=
  have h := track_file_after_appends plainPrinter (Logger.start emptyCard) sampleFix
    [none, some sampleFix] plainPrinter_noMarkup rfl rfl (by decide) (by decide) (by decide)
    (by decide) rfl (by decide)
  ⟨h.2.2.2.1, by decide, h.2.2.2.2.2.2⟩

/-! ## The offset of an append -/

set_option maxRecDepth 100000 in
/-- Claim C3 at the failing input: the card holds an empty file under the name that
the sample fix gives, `/20190102/0304.GPX`. The block `if (!recording)` finds
the file, calls only `mkdir` and `exists`, does not create the document and sets
`recording`. At the append of the same call of `loop` the size of the file is
0, less than 24; `filesize -= 24` wraps around to 4294967272; `seek` is called
with that offset, which is not a position just before closing tags (the file
has none); and the file ends up as one track point and the closing tags,
without the header. -/
theorem append_offset_wraps_on_stale_file :
    staleCard.files (filePath sampleFix) = some []
    ∧ (beginRecording { Logger.start staleCard with ledGpsFix := true } sampleFix).map
        Logger.recording = some true
    ∧ (beginRecording { Logger.start staleCard with ledGpsFix := true } sampleFix).map
        Logger.filepath = some (filePath sampleFix)
    ∧ (beginRecording { Logger.start staleCard with ledGpsFix := true } sampleFix).map
        Logger.sdCalls
        = some [SdCall.mkdir (dirName sampleFix), SdCall.exists (filePath sampleFix)]
    ∧ (beginRecording { Logger.start staleCard with ledGpsFix := true } sampleFix).map
        (fun s => s.sd.files s.filepath) = some (some [])
    ∧ (beginRecording { Logger.start staleCard with ledGpsFix := true } sampleFix).map
        (fun s => (s.sd.openWrite s.filepath).size) = some 0
    ∧ (beginRecording { Logger.start staleCard with ledGpsFix := true } sampleFix).map
        (fun s => seekTarget (s.sd.openWrite s.filepath).size) = some 4294967272
    ∧ (loop plainPrinter (Logger.start staleCard) (some sampleFix)).map Logger.sdCalls
        = some ([SdCall.mkdir (dirName sampleFix), SdCall.exists (filePath sampleFix),
            SdCall.open (filePath sampleFix), SdCall.seek (filePath sampleFix) 4294967272]
          ++ (trackPointPieces plainPrinter (dateStamp sampleFix) sampleFix).map
              (SdCall.print (filePath sampleFix))
          ++ [SdCall.print (filePath sampleFix) trailer, SdCall.close (filePath sampleFix)])
    ∧ (loop plainPrinter (Logger.start staleCard) (some sampleFix)).map
        (fun s => s.sd.files (filePath sampleFix))
        = some (some (trackPoint plainPrinter sampleFix ++ trailer)) := by
  decide

/-! ## Fixes that are not written -/

/-- Claim C4: without card error, in either state, `loop` on a fix whose `fixType` is
neither 2D nor 3D is defined, makes no call on the card (no `mkdir`, no `open`,
no `print`), leaves the card as it is, and leaves `recording`, `dir` and
`filepath` unchanged. -/
theorem loop_without_fix_touches_nothing (np : NumberPrinter) (s : Logger) (g : Fix)
    (hc : s.cardError = false) (h2d : g.fixType ≠ FIX_2D) (h3d : g.fixType ≠ FIX_3D) :
    ∃ s', loop np s (some g) = some s'
      ∧ s'.sdCalls = s.sdCalls
      ∧ s'.sd = s.sd
      ∧ s'.recording = s.recording
      ∧ s'.dir = s.dir
      ∧ s'.filepath = s.filepath := by
  have hf : ¬ hasFix g := fun h => h.elim h2d h3d
  exact ⟨_, loop_of_no_fix np s g hc hf, rfl, rfl, rfl, rfl, rfl⟩

/-- Claim C4 at a concrete input: the logger that recorded the sample fix on an empty
card, and the sample fix again with `NO_FIX`. -/
theorem loop_without_fix_touches_nothing_witness :
    ∃ s s', run plainPrinter (Logger.start emptyCard) [some sampleFix] = some s
      ∧ s.recording = true
      ∧ loop plainPrinter s (some { sampleFix with fixType := NO_FIX }) = some s'
      ∧ s'.sdCalls = s.sdCalls
      ∧ s'.sd = s.sd
      ∧ s'.recording = s.recording
      ∧ s'.filepath = s.filepath :=
  match loop_starts plainPrinter (Logger.start emptyCard) sampleFix rfl rfl
    ⟨by decide, by decide⟩ (by decide) (fun _ => by decide) with
  | ⟨s, hs, hrec, _, _, hcard⟩ =>
    match loop_without_fix_touches_nothing plainPrinter s
      { sampleFix with fixType := NO_FIX } hcard (by decide) (by decide) with
    | ⟨s', h1, h2, h3, h4, _, h6⟩ =>
      ⟨s, s', by rw [run_cons_of plainPrinter _ s _ _ hs, run_nil], hrec, h1, h2, h3, h4, h6⟩

/-- Claim C5: while recording, `loop` on a fix with a 2D or 3D solution and pDOP 0 is
defined, makes no call on the card and leaves the card, hence every byte of
the track file, as it is; `recording`, `dir` and `filepath` are unchanged. -/
theorem loop_zero_pdop_keeps_file (np : NumberPrinter) (s : Logger) (g : Fix)
    (hc : s.cardError = false) (hr : s.recording = true) (hf : hasFix g) (hp : g.pDOP = 0) :
    ∃ s', loop np s (some g) = some s'
      ∧ s'.sd = s.sd
      ∧ s'.sd.files s.filepath = s.sd.files s.filepath
      ∧ s'.sdCalls = s.sdCalls
      ∧ s'.recording = true
      ∧ s'.dir = s.dir
      ∧ s'.filepath = s.filepath := by
  obtain ⟨t, ht, k1, k2, k3, k4, k5, -⟩ :=
    writeTrackPoint_skips np { s with ledGpsFix := true } g (fun _ => hp)
  refine ⟨t, ?_, k1, by rw [k1], k2, k3.trans hr, k4, k5⟩
  rw [loop_of_recording np s g hc hr hf]
  exact ht

/-- Claim C5 at a concrete input: the logger that recorded the sample fix on an empty
card, and the sample fix again with pDOP 0. -/
theorem loop_zero_pdop_keeps_file_witness :
    ∃ s s', run plainPrinter (Logger.start emptyCard) [some sampleFix] = some s
      ∧ loop plainPrinter s (some { sampleFix with pDOP := 0 }) = some s'
      ∧ s'.sd = s.sd
      ∧ s'.sdCalls = s.sdCalls
      ∧ s'.recording = true
      ∧ s'.filepath = s.filepath :=
  match loop_starts plainPrinter (Logger.start emptyCard) sampleFix rfl rfl
    ⟨by decide, by decide⟩ (by decide) (fun _ => by decide) with
  | ⟨s, hs, hrec, _, _, hcard⟩ =>
    match loop_zero_pdop_keeps_file plainPrinter s
      { sampleFix with pDOP := 0 } hcard hrec (by decide) rfl with
    | ⟨s', h1, h2, _, h4, h5, _, h7⟩ =>
      ⟨s, s', by rw [run_cons_of plainPrinter _ s _ _ hs, run_nil], h1, h2, h4, h5, h7⟩

/-! ## Recording is final -/

/-- Claim C6 as stated fails. The fix 10000-01-02 03:04:05 (3D) qualifies, but `dir`
would be `/100000102`, 10 characters and a NUL in a buffer of 10 bytes, so
`sprintf` writes past `dir` and the call of `loop` has no defined result: the
logger is not shown to record. And after the sample fix has made the logger
record, the later fix with second 100 (3D, pDOP 1.50) has a timestamp of 21
characters and a NUL for the 21 bytes of `date`: again `sprintf` writes past the
buffer and the run has no defined result, so "still recording, same names"
does not hold regardless of the time of later fixes. -/
theorem recording_lost_on_overrun :
    startsRecording (some { sampleFix with year := 10000 })
    ∧ (dirName { sampleFix with year := 10000 }).length = 10
    ∧ ¬ fitsIn (dirName { sampleFix with year := 10000 }) dirCapacity
    ∧ run plainPrinter (Logger.start emptyCard) [some { sampleFix with year := 10000 }] = none
    ∧ (run plainPrinter (Logger.start emptyCard) [some sampleFix]).map Logger.recording
        = some true
    ∧ (dateStamp { sampleFix with sec := 100 }).length = 21
    ∧ ¬ fitsIn (dateStamp { sampleFix with sec := 100 }) dateCapacity
    ∧ run plainPrinter (Logger.start emptyCard)
        [some sampleFix, some { sampleFix with sec := 100 }] = none
    ∧ ¬ (∃ t, run plainPrinter (Logger.start emptyCard)
          [some sampleFix, some { sampleFix with sec := 100 }] = some t
        ∧ t.recording = true ∧ t.dir = dirName sampleFix
        ∧ t.filepath = filePath sampleFix) := by
  have hst : startsRecording (some sampleFix) := ⟨by decide, by decide⟩
  obtain ⟨s1, h1, r1, -, -, c1⟩ := loop_starts plainPrinter (Logger.start emptyCard) sampleFix
    rfl rfl hst (by decide) (fun _ => by decide)
  have hrun : run plainPrinter (Logger.start emptyCard)
      [some sampleFix, some { sampleFix with sec := 100 }] = none := by
    rw [run_cons_of plainPrinter _ s1 _ _ h1, run_cons,
      loop_overrun_date plainPrinter s1 _ r1 c1 (by decide) (by decide) (by decide)]
    rfl
  refine ⟨⟨by decide, by decide⟩, by decide, by decide, ?_, ?_, by decide, by decide, hrun, ?_⟩
  · rw [run_cons, loop_overrun_names plainPrinter (Logger.start emptyCard) _ rfl rfl
      ⟨by decide, by decide⟩ (by decide)]
    rfl
  · rw [run_cons_of plainPrinter _ s1 _ _ h1, run_nil]
    simp [r1]
  · rintro ⟨t, ht, -⟩
    rw [hrun] at ht
    cases ht

/-- Claim C6, amended: from an idle logger without card error, as long as no input is
a fix with a 2D or 3D solution and a year after 2000 the logger stays idle; the
first such fix `g` makes it record when its names fit `dir` and `filepath`
(year at most 9999, month, day, hour and minute at most 99); and after any
further inputs, whatever their `fixType`, and whatever their date and time as
long as the timestamp of every fix that is written fits `date` (year at most
9999, the other five fields at most 99), it still records, with `dir` and
`filepath` the names derived from `g`. -/
theorem recording_is_absorbing (np : NumberPrinter) (s : Logger)
    (pre : List (Option Fix)) (g : Fix) (post : List (Option Fix))
    (hr : s.recording = false) (hc : s.cardError = false)
    (hpre : ∀ i ∈ pre, ¬ startsRecording i) (hg : startsRecording (some g))
    (hnames : namesFit g) (hdates : ∀ f ∈ written (some g :: post), dateFits f) :
    (∃ t, run np s pre = some t ∧ t.recording = false)
    ∧ (∃ t, run np s (pre ++ [some g]) = some t ∧ t.recording = true
        ∧ t.dir = dirName g ∧ t.filepath = filePath g)
    ∧ (∃ t, run np s (pre ++ some g :: post) = some t ∧ t.recording = true
        ∧ t.dir = dirName g ∧ t.filepath = filePath g) := by
  obtain ⟨k1, k2⟩ := written_cons_subset (some g) post
  obtain ⟨t0, h0, i1, i2⟩ := run_idle np pre s hr hpre
  have hgdate : g.pDOP ≠ 0 → dateFits g := by
    intro hp
    apply hdates g
    have : written (some g :: post) = g :: written post := by simp [written, hg.1, hp]
    rw [this]
    exact List.mem_cons_self _ _
  obtain ⟨t1, h1, l1, l2, l3, -⟩ := loop_starts np t0 g i1 (i2.trans hc) hg hnames hgdate
  obtain ⟨t2, h2, r1, r2, r3⟩ := run_recording np post t1 l1 (fun f hf => hdates f (k2 f hf))
  refine ⟨⟨t0, h0, i1⟩, ⟨t1, ?_, l1, l2, l3⟩, ⟨t2, ?_, r1, r2.trans l2, r3.trans l3⟩⟩
  · rw [run_append_of np pre [some g] s t0 h0, run_cons_of np t0 t1 _ _ h1, run_nil]
  · rw [run_append_of np pre (some g :: post) s t0 h0, run_cons_of np t0 t1 _ _ h1]
    exact h2

/-- Claim C6, amended, at a concrete input: a fix of the year 1999, a call without a
message, the sample fix, then a later fix without a solution whose fields are
out of range and a written fix of another day. -/
theorem recording_is_absorbing_witness :
    ∃ t, run plainPrinter (Logger.start emptyCard)
          ([some { sampleFix with year := 1999 }, none] ++ some sampleFix ::
            [some { sampleFix with fixType := NO_FIX, year := 12345, sec := 200 },
              some { sampleFix with day := 3, hour := 9 }]) = some t
      ∧ t.recording = true
      ∧ t.dir = dirName sampleFix ∧ t.filepath = filePath sampleFix :=
  (recording_is_absorbing plainPrinter (Logger.start emptyCard)
    [some { sampleFix with year := 1999 }, none] sampleFix
    [some { sampleFix with fixType := NO_FIX, year := 12345, sec := 200 },
      some { sampleFix with day := 3, hour := 9 }]
    rfl rfl
    (by
      intro i hi
      simp only [List.mem_cons, List.mem_singleton, List.not_mem_nil, or_false] at hi
      rcases hi with rfl | rfl
      · intro h; exact absurd h.2 (by decide)
      · intro h; exact h)
    ⟨by decide, by decide⟩
    (by decide)
    (by decide)).2.2

end GpsTracker
